import Mathlib

/-!
Verification of the plan-to-deployment core of the `sfdc-engine-x-api`
repository against its natural-language specification.

The Python services are shallowly embedded over `PyVal`, a model of the
dynamically typed JSON-like values the services manipulate
(`src/app/services/deploy_service.py`, `push_service.py`,
`conflict_checker.py`, `deploy_validators.py`, `metadata_builder.py`,
`salesforce.py`).  Remote HTTP calls (the "salesforce gateway") are
abstracted at the function boundary as oracle parameters: an oracle value
of `Except PyVal r` is the outcome of one awaited gateway call, where the
`.error` side carries the `HTTPException.detail` payload.  Everything on
the near side of those boundaries is translated from the source.
-/

namespace SfdcEngine

/-- A Python value as the services use them: `None`, `bool`, `int`, `str`,
`list`, and `dict` with string keys (all dictionaries in the analysed code
are JSON-shaped).  A dict is an association list; Python dictionaries have
unique keys, and lookups here take the first match. -/
inductive PyVal where
  | none : PyVal
  | bool (b : Bool) : PyVal
  | int (n : Int) : PyVal
  | str (s : String) : PyVal
  | list (xs : List PyVal) : PyVal
  | dict (xs : List (String × PyVal)) : PyVal

namespace PyVal

/-- Python truthiness: `bool(v)`. -/
def truthy : PyVal → Bool
  | .none => false
  | .bool b => b
  | .int n => n != 0
  | .str s => s != ""
  | .list xs => !xs.isEmpty
  | .dict xs => !xs.isEmpty

/-- `isinstance(v, dict)`. -/
def isDict : PyVal → Bool
  | .dict _ => true
  | _ => false

/-- `isinstance(v, list)`. -/
def isList : PyVal → Bool
  | .list _ => true
  | _ => false

/-- `isinstance(v, str)`. -/
def isStr : PyVal → Bool
  | .str _ => true
  | _ => false

/-- `isinstance(v, bool)`. -/
def isBool : PyVal → Bool
  | .bool _ => true
  | _ => false

/-- `d.get(k)` on a dict (first binding wins, as in a Python dict);
`Option.none` both when the key is absent and when `v` is not a dict
(the sources always guard with `isinstance` before calling `.get`). -/
def get? (v : PyVal) (k : String) : Option PyVal :=
  match v with
  | .dict xs => xs.lookup k
  | _ => Option.none

/-- `d.get(k)`: absent keys give Python `None`. -/
def getD (v : PyVal) (k : String) : PyVal :=
  (v.get? k).getD .none

/-- `d.get(k, fallback)`. -/
def getOr (v : PyVal) (k : String) (fallback : PyVal) : PyVal :=
  (v.get? k).getD fallback

/-- `k in d` for a dict. -/
def hasKey (v : PyVal) (k : String) : Bool :=
  (v.get? k).isSome

/-- Python `a or b`: the first operand when truthy, otherwise the second. -/
def orElse (a b : PyVal) : PyVal :=
  if a.truthy then a else b

/-- Python dict assignment `m[k] = v`: any earlier binding of `k` is
replaced (insertion order is irrelevant to the lookups the code performs). -/
def mapInsert (m : List (String × PyVal)) (k : String) (v : PyVal) : List (String × PyVal) :=
  m.filter (fun p => p.1 ≠ k) ++ [(k, v)]

end PyVal

/-! ### Kernel-computable string helpers

Lean's own `String.trim`, `endsWith`, `toLower`, `splitOn` and `replace`
recurse over byte positions through well-founded recursion and get stuck
under kernel reduction; the embeddings use the `List Char` equivalents
below of the corresponding Python string methods, so that concrete runs
evaluate by `decide` and `rfl`. -/

/-- Drop leading whitespace characters. -/
def dropWhileWs : List Char → List Char
  | [] => []
  | c :: rest => if c.isWhitespace then dropWhileWs rest else c :: rest

/-- Python `str.strip()` (over the whitespace the analysed inputs use). -/
def pyStrip (s : String) : String :=
  ⟨(dropWhileWs (dropWhileWs s.data).reverse).reverse⟩

/-- Python `str.lower()` (ASCII, which is all the sources compare). -/
def pyLower (s : String) : String :=
  ⟨s.data.map Char.toLower⟩

/-- Python `str.endswith(suffix)`. -/
def pyEndsWith (s suffix : String) : Bool :=
  suffix.data.reverse.isPrefixOf s.data.reverse

/-- The slice `s[:-n]` for `n ≤ len(s)`. -/
def pyDropRight (s : String) (n : Nat) : String :=
  ⟨s.data.take (s.data.length - n)⟩

/-- Python `c in s` for a single character. -/
def pyContainsChar (s : String) (c : Char) : Bool :=
  s.data.contains c

/-- The characters before and after the first occurrence of `c`
(`s.split(c, 1)`; callers establish that `c` occurs). -/
def splitFirstAux (c : Char) (acc : List Char) : List Char → List Char × List Char
  | [] => (acc.reverse, [])
  | x :: rest => if x = c then (acc.reverse, rest) else splitFirstAux c (x :: acc) rest

/-- `s.split(c, 1)` as a pair of strings. -/
def pySplitFirst (s : String) (c : Char) : String × String :=
  let parts := splitFirstAux c [] s.data
  (⟨parts.1⟩, ⟨parts.2⟩)

/-- Python `pat in hay` (substring containment). -/
def charsContain (pat : List Char) : List Char → Bool
  | [] => pat.isEmpty
  | c :: rest => pat.isPrefixOf (c :: rest) || charsContain pat rest

/-- Python `pat in hay` over strings. -/
def pyContainsSub (hay pat : String) : Bool :=
  charsContain pat.data hay.data

/-- Python `str.replace(old, new)`: leftmost non-overlapping occurrences
(the empty-pattern case, which no caller passes, changes nothing).  The
fuel argument, one unit per input character, keeps the recursion
structural so the kernel can evaluate it; `pyReplace` supplies enough. -/
def replaceCharsFuel (pat rep : List Char) : Nat → List Char → List Char
  | _, [] => []
  | 0, l => l
  | Nat.succ fuel, c :: rest =>
      if ¬pat.isEmpty ∧ pat.isPrefixOf (c :: rest) then
        rep ++ replaceCharsFuel pat rep fuel (rest.drop (pat.length - 1))
      else c :: replaceCharsFuel pat rep fuel rest

/-- Python `str.replace` over strings. -/
def pyReplace (s pat rep : String) : String :=
  ⟨replaceCharsFuel pat.data rep.data s.data.length s.data⟩

/-- `sep.join(parts)`. -/
def joinWith (sep : String) : List String → String
  | [] => ""
  | [x] => x
  | x :: rest => x ++ sep ++ joinWith sep rest

/-- Digit-run parser for `pyParseInt`. -/
def digitsToNatAux (acc : Nat) : List Char → Option Nat
  | [] => some acc
  | c :: rest =>
      if c.isDigit then digitsToNatAux (acc * 10 + (c.toNat - '0'.toNat)) rest
      else Option.none

/-- Python `int(str)` on the numeric strings the sources pass; a
non-numeric string gives `none` where Python raises (unexercised). -/
def pyParseInt (s : String) : Option Int :=
  match (pyStrip s).data with
  | [] => Option.none
  | '-' :: rest =>
      (match rest with
       | [] => Option.none
       | cs => (digitsToNatAux 0 cs).map (fun n => -(n : Int)))
  | '+' :: rest =>
      (match rest with
       | [] => Option.none
       | cs => (digitsToNatAux 0 cs).map (fun n => (n : Int)))
  | cs => (digitsToNatAux 0 cs).map (fun n => (n : Int))

/-- Python `str(v)` when the flag is false and `repr(v)` when it is true
(`str` of a container renders its elements with `repr`). -/
def pyStrCore : Nat → Bool → PyVal → String
  | fuel, asRepr, v =>
    match v with
    | .none => "None"
    | .bool true => "True"
    | .bool false => "False"
    | .int n => toString n
    | .str s => if asRepr then "'" ++ s ++ "'" else s
    | .list xs =>
        match fuel with
        | 0 => ""
        | Nat.succ f => "[" ++ joinWith ", " (xs.map (pyStrCore f true)) ++ "]"
    | .dict xs =>
        match fuel with
        | 0 => ""
        | Nat.succ f =>
            "\x7b" ++ joinWith ", "
              (xs.map fun p => "'" ++ p.1 ++ "': " ++ pyStrCore f true p.2) ++ "\x7d"

/-- Nesting depth of a value: the fuel `pyStr` hands `pyStrCore`, so its
exhausted-fuel branches are never reached. -/
def pyDepth : PyVal → Nat
  | .none => 0
  | .bool _ => 0
  | .int _ => 0
  | .str _ => 0
  | .list xs => (xs.attach.map fun x => pyDepth x.1).foldl max 0 + 1
  | .dict xs => (xs.attach.map fun p => pyDepth p.1.2).foldl max 0 + 1
  termination_by v => sizeOf v
  decreasing_by
  · have := List.sizeOf_lt_of_mem x.2
    simp_wf
    omega
  · rcases p with ⟨⟨k, v⟩, hp⟩
    have := List.sizeOf_lt_of_mem hp
    simp_wf
    simp only [Prod.mk.sizeOf_spec] at this
    omega

/-- Python `str(v)`.  Scalars are rendered directly (so concrete runs
reduce in the kernel); containers delegate to the fuelled renderer, which
agrees with the direct cases on scalars. -/
def pyStr (v : PyVal) : String :=
  match v with
  | .none => "None"
  | .bool true => "True"
  | .bool false => "False"
  | .int n => toString n
  | .str s => s
  | .list xs => pyStrCore (pyDepth (.list xs)) false (.list xs)
  | .dict xs => pyStrCore (pyDepth (.dict xs)) false (.dict xs)

/-- Python `repr(v)`. -/
def pyRepr (v : PyVal) : String :=
  match v with
  | .none => "None"
  | .bool true => "True"
  | .bool false => "False"
  | .int n => toString n
  | .str s => "'" ++ s ++ "'"
  | .list xs => pyStrCore (pyDepth (.list xs)) true (.list xs)
  | .dict xs => pyStrCore (pyDepth (.dict xs)) true (.dict xs)

/-- `int(v)` for the values the sources feed it (ints, bools, numeric
strings); Python raises on anything else, which no analysed path does, so
other shapes map to 0 here. -/
def pyToInt : PyVal → Int
  | .int n => n
  | .bool b => if b then 1 else 0
  | .str s => (pyParseInt s).getD 0
  | _ => 0

/-- The idiom `str(d.get(k) or "")`. -/
def getStr (d : PyVal) (k : String) : String :=
  pyStr ((d.getD k).orElse (.str ""))

/-- The idiom `str(d.get(k) or "").strip()`. -/
def getStrStripped (d : PyVal) (k : String) : String :=
  pyStrip (getStr d k)

/-! ## Python keyword-argument binding at the gateway call sites (C1)

`execute_deployment` (deploy_service.py:870-874) and `push_records`
(push_service.py:66-72) call into `app.services.salesforce` with an
explicit keyword-argument list.  Python binds a keyword call against the
callee's declared parameters; a function without `**kwargs` raises
`TypeError` when some keyword matches no parameter. -/

/-- A Python keyword-only call against a function with no `**kwargs`
binds (does not raise `TypeError`) exactly when every passed keyword is a
declared parameter name. -/
def kwargsAccepted (declaredParams passedKwargs : List String) : Bool :=
  passedKwargs.all (fun k => declaredParams.contains k)

/-- Declared parameters of `salesforce.metadata_deploy_and_poll`
(salesforce.py:503-508). -/
def metadataDeployAndPollParams : List String :=
  ["nango_connection_id", "zip_bytes", "poll_interval", "timeout"]

/-- Declared parameters of `salesforce.composite_upsert`
(salesforce.py:188-193). -/
def compositeUpsertParams : List String :=
  ["nango_connection_id", "object_name", "external_id_field", "records"]

/-- Keywords passed by `execute_deployment` to
`salesforce.metadata_deploy_and_poll` (deploy_service.py:870-874). -/
def executeDeploymentDeployCallKwargs : List String :=
  ["nango_connection_id", "zip_bytes", "provider_config_key"]

/-- Keywords passed by `push_records` to `salesforce.composite_upsert`
(push_service.py:66-72). -/
def pushRecordsUpsertCallKwargs : List String :=
  ["nango_connection_id", "object_name", "external_id_field", "records",
   "provider_config_key"]

/-! ## Plan validators (`src/app/services/deploy_validators.py`) -/

/-- A validation error: the Python dict `{"field": ..., "message": ...}`
appended by `_add_error`. -/
structure VErr where
  field : String
  message : String
deriving DecidableEq, Repr

/-- `_is_non_empty_string`. -/
def isNonEmptyString (v : PyVal) : Bool :=
  match v with
  | .str s => pyStrip s != ""
  | _ => false

/-- The value `_validate_required_string` returns: the stripped string when
the payload holds a non-empty string under the key, `""` otherwise. -/
def requiredStringValue (payload : PyVal) (key : String) : String :=
  match payload.get? key with
  | some (.str s) => if pyStrip s != "" then pyStrip s else ""
  | _ => ""

/-- The errors `_validate_required_string` appends. -/
def requiredStringErrs (payload : PyVal) (key path : String) : List VErr :=
  match payload.get? key with
  | some (.str s) =>
      if pyStrip s != "" then []
      else [⟨path ++ "." ++ key, key ++ " must be a non-empty string"⟩]
  | _ => [⟨path ++ "." ++ key, key ++ " must be a non-empty string"⟩]

/-- The value `_validate_positive_int_if_present` returns (`bool` is checked
before `int`, as in the source, so Python's `True`/`False` never count). -/
def positiveIntValue (payload : PyVal) (key : String) : Option Int :=
  match payload.get? key with
  | some (.int n) => if n ≤ 0 then Option.none else some n
  | _ => Option.none

/-- The errors `_validate_positive_int_if_present` appends. -/
def positiveIntErrs (payload : PyVal) (key path : String) : List VErr :=
  match payload.get? key with
  | Option.none => []
  | some .none => []
  | some (.int n) =>
      if n ≤ 0 then [⟨path ++ "." ++ key, key ++ " must be a positive integer"⟩] else []
  | some _ => [⟨path ++ "." ++ key, key ++ " must be a positive integer"⟩]

/-- The flag `_validate_pre_existing_flag` returns. -/
def preExistingValue (payload : PyVal) : Bool :=
  match payload.get? "pre_existing" with
  | some (.bool b) => b
  | _ => false

/-- The errors `_validate_pre_existing_flag` appends. -/
def preExistingErrs (payload : PyVal) (path : String) : List VErr :=
  match payload.get? "pre_existing" with
  | Option.none => []
  | some (.bool _) => []
  | some _ => [⟨path ++ ".pre_existing", "pre_existing must be a boolean when provided"⟩]

/-- `CUSTOM_FIELD_TYPES`. -/
def customFieldTypes : List String :=
  ["Text", "Number", "Currency", "Percent", "Picklist", "Lookup", "MasterDetail",
   "Checkbox", "TextArea", "LongTextArea", "Date", "DateTime", "Phone", "Email", "Url"]

/-- `", ".join(sorted(CUSTOM_FIELD_TYPES))`. -/
def customFieldTypesSorted : String :=
  "Checkbox, Currency, Date, DateTime, Email, LongTextArea, Lookup, MasterDetail, Number, Percent, Phone, Picklist, Text, TextArea, Url"

/-- `RELATIONSHIP_FIELD_TYPES`. -/
def relationshipFieldTypes : List String := ["Lookup", "MasterDetail"]

/-- `", ".join(sorted(RELATIONSHIP_FIELD_TYPES))`. -/
def relationshipFieldTypesSorted : String := "Lookup, MasterDetail"

/-- The type-specific tail of `_validate_custom_field_entry`, entered once
the type is known valid. -/
def fieldTypeSpecificErrs (fieldPayload : PyVal) (fieldPath fieldType : String) : List VErr :=
  if fieldType = "Text" then
    positiveIntErrs fieldPayload "length" fieldPath
  else if fieldType = "Number" ∨ fieldType = "Currency" ∨ fieldType = "Percent" then
    let precision := positiveIntValue fieldPayload "precision"
    let scale := positiveIntValue fieldPayload "scale"
    positiveIntErrs fieldPayload "precision" fieldPath
      ++ positiveIntErrs fieldPayload "scale" fieldPath
      ++ (match precision, scale with
          | some p, some s =>
              if p < s then
                [⟨fieldPath ++ ".precision",
                  "precision (" ++ toString p ++ ") must be greater than or equal to scale ("
                    ++ toString s ++ ")"⟩]
              else []
          | _, _ => [])
  else if fieldType = "Picklist" then
    match fieldPayload.get? "values" with
    | Option.none => []
    | some (.list (_ :: _)) => []
    | some _ =>
        [⟨fieldPath ++ ".values", "Picklist values must be a non-empty list when provided"⟩]
  else if fieldType = "Lookup" ∨ fieldType = "MasterDetail" then
    if isNonEmptyString (fieldPayload.getD "related_to")
        || isNonEmptyString (fieldPayload.getD "referenceTo") then []
    else
      [⟨fieldPath ++ ".related_to",
        "Lookup/MasterDetail fields must include a non-empty related_to or referenceTo"⟩]
  else if fieldType = "Checkbox" then
    (match fieldPayload.get? "default" with
     | Option.none => []
     | some (.bool _) => []
     | some _ => [⟨fieldPath ++ ".default", "default must be a boolean when provided"⟩])
      ++ (match fieldPayload.get? "default_value" with
          | Option.none => []
          | some (.bool _) => []
          | some _ =>
              [⟨fieldPath ++ ".default_value", "default_value must be a boolean when provided"⟩])
  else if fieldType = "LongTextArea" then
    positiveIntErrs fieldPayload "length" fieldPath
  else []

/-- `_validate_custom_field_entry` (the errors it appends, in order). -/
def validateCustomFieldEntry (fieldPayload : PyVal) (fieldPath : String)
    (relationshipOnly : Bool) : List VErr :=
  let base := requiredStringErrs fieldPayload "api_name" fieldPath
    ++ requiredStringErrs fieldPayload "label" fieldPath
    ++ requiredStringErrs fieldPayload "type" fieldPath
  let fieldType := requiredStringValue fieldPayload "type"
  if fieldType = "" then base
  else
    let validTypes := if relationshipOnly then relationshipFieldTypes else customFieldTypes
    if !(validTypes.contains fieldType) then
      base ++ [⟨fieldPath ++ ".type",
        "Invalid field type '" ++ fieldType ++ "'. Must be one of: "
          ++ (if relationshipOnly then relationshipFieldTypesSorted else customFieldTypesSorted)⟩]
    else base ++ fieldTypeSpecificErrs fieldPayload fieldPath fieldType

/-- The per-entry loop over a custom object's `fields` or `relationships`
list in `validate_custom_object_plan`. -/
def validateFieldList (basePath : String) (relationshipOnly : Bool) :
    Nat → List PyVal → List VErr
  | _, [] => []
  | i, f :: rest =>
      let path := basePath ++ "[" ++ toString i ++ "]"
      (if f.isDict then validateCustomFieldEntry f path relationshipOnly
       else [⟨path, if relationshipOnly then "relationship entry must be an object"
                    else "field entry must be an object"⟩])
        ++ validateFieldList basePath relationshipOnly (i + 1) rest

/-- One `custom_objects[i]` entry of `validate_custom_object_plan`. -/
def validateCustomObjectEntry (i : Nat) (customObject : PyVal) : List VErr :=
  let objectPath := "custom_objects[" ++ toString i ++ "]"
  if ¬customObject.isDict then [⟨objectPath, "custom_object entry must be an object"⟩]
  else
    let apiName := requiredStringValue customObject "api_name"
    requiredStringErrs customObject "api_name" objectPath
      ++ (if apiName != "" && !(pyEndsWith apiName "__c") then
            [⟨objectPath ++ ".api_name", "Custom object api_name must end with '__c'"⟩]
          else [])
      ++ requiredStringErrs customObject "label" objectPath
      ++ (match customObject.getD "fields" with
          | .none => []
          | .list fs => validateFieldList (objectPath ++ ".fields") false 0 fs
          | _ => [⟨objectPath ++ ".fields", "fields must be a list when provided"⟩])
      ++ (match customObject.getD "relationships" with
          | .none => []
          | .list rs => validateFieldList (objectPath ++ ".relationships") true 0 rs
          | _ => [⟨objectPath ++ ".relationships", "relationships must be a list when provided"⟩])

/-- The indexed loop over `custom_objects`. -/
def validateCustomObjectList : Nat → List PyVal → List VErr
  | _, [] => []
  | i, co :: rest => validateCustomObjectEntry i co ++ validateCustomObjectList (i + 1) rest

/-- `validate_custom_object_plan`. -/
def validateCustomObjectPlan (plan : PyVal) : List VErr :=
  if ¬plan.isDict then [⟨"plan", "Plan must be an object"⟩]
  else
    match plan.getD "custom_objects" with
    | .none => []
    | .list objs => validateCustomObjectList 0 objs
    | _ => [⟨"custom_objects", "custom_objects must be a list"⟩]

/-- `FOLDER_ACCESS_TYPES`. -/
def folderAccessTypes : List String := ["Public", "PublicInternal", "Shared", "Hidden"]

/-- `", ".join(sorted(FOLDER_ACCESS_TYPES))`. -/
def folderAccessTypesSorted : String := "Hidden, Public, PublicInternal, Shared"

/-- `REPORT_FORMATS`. -/
def reportFormats : List String := ["Tabular", "Summary", "Matrix", "MultiBlock"]

/-- `", ".join(sorted(REPORT_FORMATS))`. -/
def reportFormatsSorted : String := "Matrix, MultiBlock, Summary, Tabular"

/-- `REPORT_SCOPES`. -/
def reportScopes : List String := ["organization", "user", "mine", "team", "everything"]

/-- `", ".join(sorted(REPORT_SCOPES))`. -/
def reportScopesSorted : String := "everything, mine, organization, team, user"

/-- `REPORT_CHART_TYPES`. -/
def reportChartTypes : List String :=
  ["VerticalColumn", "HorizontalBar", "Bar", "BarStacked", "BarStacked100", "Column",
   "ColumnStacked", "ColumnStacked100", "Line", "LineCumulative", "LineGrouped", "Pie",
   "Donut", "Funnel", "Scatter", "ScatterGrouped"]

/-- `", ".join(sorted(REPORT_CHART_TYPES))`. -/
def reportChartTypesSorted : String :=
  "Bar, BarStacked, BarStacked100, Column, ColumnStacked, ColumnStacked100, Donut, Funnel, HorizontalBar, Line, LineCumulative, LineGrouped, Pie, Scatter, ScatterGrouped, VerticalColumn"

/-- `CHART_AGGREGATES`. -/
def chartAggregates : List String := ["Sum", "Average", "Maximum", "Minimum", "RowCount"]

/-- `", ".join(sorted(CHART_AGGREGATES))`. -/
def chartAggregatesSorted : String := "Average, Maximum, Minimum, RowCount, Sum"

/-- `GROUPING_SORT_ORDERS`. -/
def groupingSortOrders : List String := ["Asc", "Desc"]

/-- `", ".join(sorted(GROUPING_SORT_ORDERS))`. -/
def groupingSortOrdersSorted : String := "Asc, Desc"

/-- `GROUPING_DATE_GRANULARITIES`. -/
def groupingDateGranularities : List String :=
  ["None", "Day", "Week", "Month", "Quarter", "Year", "FiscalQuarter", "FiscalYear"]

/-- `", ".join(sorted(GROUPING_DATE_GRANULARITIES))`. -/
def groupingDateGranularitiesSorted : String :=
  "Day, FiscalQuarter, FiscalYear, Month, None, Quarter, Week, Year"

/-- `DASHBOARD_TYPES`. -/
def dashboardTypes : List String := ["SpecifiedUser", "LoggedInUser", "MyTeamUser"]

/-- `", ".join(sorted(DASHBOARD_TYPES))`. -/
def dashboardTypesSorted : String := "LoggedInUser, MyTeamUser, SpecifiedUser"

/-- `DASHBOARD_COMPONENT_TYPES`. -/
def dashboardComponentTypes : List String :=
  ["Bar", "BarStacked", "BarStacked100", "Column", "ColumnStacked", "ColumnStacked100",
   "Line", "LineCumulative", "LineGrouped", "Pie", "Donut", "Funnel", "Gauge", "Metric",
   "Table", "Scatter", "ScatterGrouped", "FlexTable"]

/-- `", ".join(sorted(DASHBOARD_COMPONENT_TYPES))`. -/
def dashboardComponentTypesSorted : String :=
  "Bar, BarStacked, BarStacked100, Column, ColumnStacked, ColumnStacked100, Donut, FlexTable, Funnel, Gauge, Line, LineCumulative, LineGrouped, Metric, Pie, Scatter, ScatterGrouped, Table"

/-- The check `if not _is_non_empty_string(v) or str(v) not in ALLOWED`,
shared by every enum-constrained field of `validate_analytics_plan` whose
message renders the raw value with `str`. -/
def enumValErr (v : PyVal) (path key : String) (allowed : List String)
    (allowedSorted : String) : List VErr :=
  if isNonEmptyString v && allowed.contains (pyStr v) then []
  else
    [⟨path ++ "." ++ key,
      "Invalid " ++ key ++ " '" ++ pyStr v ++ "'. Must be one of: " ++ allowedSorted⟩]

/-- The same enum check guarded by `if key in payload` (`format`, `scope`,
`accessType`, `sortOrder`, `dateGranularity`). -/
def keyEnumErrs (payload : PyVal) (key path : String) (allowed : List String)
    (allowedSorted : String) : List VErr :=
  match payload.get? key with
  | Option.none => []
  | some v => enumValErr v path key allowed allowedSorted

/-- One `report_folders[i]` / `dashboard_folders[i]` entry of
`validate_analytics_plan` (the two loops differ only in path and label). -/
def folderEntryErrs (sectionKey entryKind : String) (i : Nat) (folder : PyVal) : List VErr :=
  let path := sectionKey ++ "[" ++ toString i ++ "]"
  if ¬folder.isDict then [⟨path, entryKind ++ " entry must be an object"⟩]
  else
    requiredStringErrs folder "api_name" path
      ++ requiredStringErrs folder "name" path
      ++ keyEnumErrs folder "accessType" path folderAccessTypes folderAccessTypesSorted

/-- The indexed loop over a folder list. -/
def folderErrsAux (sectionKey entryKind : String) : Nat → List PyVal → List VErr
  | _, [] => []
  | i, f :: rest =>
      folderEntryErrs sectionKey entryKind i f ++ folderErrsAux sectionKey entryKind (i + 1) rest

/-- `report_folders_in_plan` / `dashboard_folders_in_plan`: the stripped
`api_name` of each dict entry whose `api_name` validates (a Python `set`;
only membership is ever used, so duplicates are harmless here). -/
def folderNamesSet : List PyVal → List String
  | [] => []
  | f :: rest =>
      (if f.isDict then
         let a := requiredStringValue f "api_name"
         if a != "" then [a] else []
       else []) ++ folderNamesSet rest

/-- One `chartSummaries[j]` entry. -/
def chartSummaryErrs (base : String) (j : Nat) (summary : PyVal) : List VErr :=
  let path := base ++ "[" ++ toString j ++ "]"
  if ¬summary.isDict then [⟨path, "chart summary must be an object"⟩]
  else
    let aggregate := requiredStringValue summary "aggregate"
    requiredStringErrs summary "aggregate" path
      ++ (if aggregate != "" && !(chartAggregates.contains aggregate) then
            [⟨path ++ ".aggregate",
              "Invalid aggregate '" ++ aggregate ++ "'. Must be one of: " ++ chartAggregatesSorted⟩]
          else [])
      ++ requiredStringErrs summary "column" path

/-- The loop over `chartSummaries`. -/
def chartSummariesErrsAux (base : String) : Nat → List PyVal → List VErr
  | _, [] => []
  | j, s :: rest => chartSummaryErrs base j s ++ chartSummariesErrsAux base (j + 1) rest

/-- The `chart` block of a report. -/
def reportChartErrs (report : PyVal) (reportPath : String) : List VErr :=
  match report.getD "chart" with
  | .none => []
  | .dict chartEntries =>
      let chart : PyVal := .dict chartEntries
      enumValErr (chart.getD "chartType") (reportPath ++ ".chart") "chartType"
          reportChartTypes reportChartTypesSorted
        ++ (match chart.getD "chartSummaries" with
            | .list (s :: rest) =>
                chartSummariesErrsAux (reportPath ++ ".chart.chartSummaries") 0 (s :: rest)
            | _ =>
                [⟨reportPath ++ ".chart.chartSummaries",
                  "chartSummaries must be a non-empty list when chart is provided"⟩])
  | _ => [⟨reportPath ++ ".chart", "chart must be an object when provided"⟩]

/-- One `groupingsDown[j]` / `groupingsAcross[j]` entry. -/
def groupingEntryErrs (base : String) (j : Nat) (grouping : PyVal) : List VErr :=
  let path := base ++ "[" ++ toString j ++ "]"
  if ¬grouping.isDict then [⟨path, "grouping entry must be an object"⟩]
  else
    requiredStringErrs grouping "field" path
      ++ keyEnumErrs grouping "sortOrder" path groupingSortOrders groupingSortOrdersSorted
      ++ keyEnumErrs grouping "dateGranularity" path groupingDateGranularities
          groupingDateGranularitiesSorted

/-- The loop over one groupings list. -/
def groupingsErrsAux (base : String) : Nat → List PyVal → List VErr
  | _, [] => []
  | j, g :: rest => groupingEntryErrs base j g ++ groupingsErrsAux base (j + 1) rest

/-- The `groupingsDown` / `groupingsAcross` block of a report. -/
def reportGroupingsErrs (report : PyVal) (reportPath groupingKey : String) : List VErr :=
  match report.getD groupingKey with
  | .none => []
  | .list gs => groupingsErrsAux (reportPath ++ "." ++ groupingKey) 0 gs
  | _ => [⟨reportPath ++ "." ++ groupingKey, groupingKey ++ " must be a list when provided"⟩]

/-- One `criteriaItems[j]` entry. -/
def criteriaItemErrs (base : String) (j : Nat) (criteria : PyVal) : List VErr :=
  let path := base ++ "[" ++ toString j ++ "]"
  if ¬criteria.isDict then [⟨path, "criteria item must be an object"⟩]
  else
    requiredStringErrs criteria "column" path
      ++ requiredStringErrs criteria "operator" path
      ++ requiredStringErrs criteria "value" path

/-- The loop over `criteriaItems`. -/
def criteriaItemsErrsAux (base : String) : Nat → List PyVal → List VErr
  | _, [] => []
  | j, c :: rest => criteriaItemErrs base j c ++ criteriaItemsErrsAux base (j + 1) rest

/-- The `filter` block of a report. -/
def reportFilterErrs (report : PyVal) (reportPath : String) : List VErr :=
  match report.getD "filter" with
  | .none => []
  | .dict filterEntries =>
      let filterVal : PyVal := .dict filterEntries
      (match filterVal.getD "criteriaItems" with
       | .none => []
       | .list cs => criteriaItemsErrsAux (reportPath ++ ".filter.criteriaItems") 0 cs
       | _ =>
           [⟨reportPath ++ ".filter.criteriaItems", "criteriaItems must be a list when provided"⟩])
  | _ => [⟨reportPath ++ ".filter", "filter must be an object when provided"⟩]

/-- `"reports[" + str(i) + "]"`. -/
def reportPathOf (i : Nat) : String := "reports[" ++ toString i ++ "]"

/-- Everything a `reports[i]` dict entry appends before the
`pre_existing` flag and the folder referential check, in source order. -/
def reportBaseErrs (i : Nat) (report : PyVal) : List VErr :=
  let path := reportPathOf i
  requiredStringErrs report "api_name" path
    ++ requiredStringErrs report "folder" path
    ++ requiredStringErrs report "name" path
    ++ requiredStringErrs report "reportType" path
    ++ keyEnumErrs report "format" path reportFormats reportFormatsSorted
    ++ keyEnumErrs report "scope" path reportScopes reportScopesSorted
    ++ reportChartErrs report path
    ++ reportGroupingsErrs report path "groupingsDown"
    ++ reportGroupingsErrs report path "groupingsAcross"
    ++ reportFilterErrs report path

/-- The final referential check of a report: its folder must be in the
plan's report folders unless the report is marked `pre_existing`. -/
def reportFolderCheck (reportFoldersInPlan : List String) (i : Nat) (report : PyVal) :
    List VErr :=
  let folder := requiredStringValue report "folder"
  if folder != "" && !(preExistingValue report) && !(reportFoldersInPlan.contains folder) then
    [⟨reportPathOf i ++ ".folder",
      "Report folder '" ++ folder
        ++ "' not found in plan report_folders and not marked as pre_existing"⟩]
  else []

/-- One `reports[i]` entry of `validate_analytics_plan`. -/
def reportItemErrs (reportFoldersInPlan : List String) (i : Nat) (report : PyVal) :
    List VErr :=
  if ¬report.isDict then [⟨reportPathOf i, "report entry must be an object"⟩]
  else
    reportBaseErrs i report
      ++ preExistingErrs report (reportPathOf i)
      ++ reportFolderCheck reportFoldersInPlan i report

/-- The indexed loop over `reports`. -/
def reportsErrsAux (reportFoldersInPlan : List String) : Nat → List PyVal → List VErr
  | _, [] => []
  | i, r :: rest =>
      reportItemErrs reportFoldersInPlan i r ++ reportsErrsAux reportFoldersInPlan (i + 1) rest

/-- `reports_in_plan`: `"{folder}/{api_name}"` for each dict report whose
`api_name` and `folder` both validate (a Python `set`; membership only). -/
def reportsInPlan : List PyVal → List String
  | [] => []
  | r :: rest =>
      (if r.isDict then
         let a := requiredStringValue r "api_name"
         let f := requiredStringValue r "folder"
         if a != "" && f != "" then [f ++ "/" ++ a] else []
       else []) ++ reportsInPlan rest

/-- `"dashboards[" + str(i) + "]"`. -/
def dashboardPathOf (i : Nat) : String := "dashboards[" ++ toString i ++ "]"

/-- One dashboard component entry of a dashboard section. -/
def dashboardComponentErrs (reportsSet : List String) (path : String) (component : PyVal) :
    List VErr :=
  if ¬component.isDict then [⟨path, "dashboard component must be an object"⟩]
  else
    let componentReport := component.getD "report"
    (match component.getD "componentType" with
     | .none => []
     | v => enumValErr v path "componentType" dashboardComponentTypes
         dashboardComponentTypesSorted)
      ++ (match componentReport with
          | .none => []
          | v =>
              if isNonEmptyString v then []
              else [⟨path ++ ".report", "report must be a non-empty string when provided"⟩])
      ++ preExistingErrs component path
      ++ (if isNonEmptyString componentReport && !(preExistingValue component)
              && !(reportsSet.contains (pyStrip (pyStr componentReport))) then
            [⟨path ++ ".report",
              "Dashboard component report '" ++ pyStrip (pyStr componentReport)
                ++ "' not found in plan reports and not marked as pre_existing"⟩]
          else [])

/-- The loop over one dashboard section's components. -/
def dashboardComponentsAux (reportsSet : List String) (base : String) :
    Nat → List PyVal → List VErr
  | _, [] => []
  | j, c :: rest =>
      dashboardComponentErrs reportsSet (base ++ "[" ++ toString j ++ "]") c
        ++ dashboardComponentsAux reportsSet base (j + 1) rest

/-- One `leftSection` / `middleSection` / `rightSection` block. -/
def dashboardSectionErrs (reportsSet : List String) (dashboard : PyVal)
    (path sectionName : String) : List VErr :=
  match dashboard.getD sectionName with
  | .none => []
  | .list cs => dashboardComponentsAux reportsSet (path ++ "." ++ sectionName) 0 cs
  | _ => [⟨path ++ "." ++ sectionName, sectionName ++ " must be a list when provided"⟩]

/-- The `dashboardType` block: its errors and the resolved type
(`Option.none` models the Python `None` an invalid value is replaced by). -/
def dashboardTypeResolve (dashboard : PyVal) (path : String) :
    List VErr × Option String :=
  match dashboard.getD "dashboardType" with
  | .none => ([], some "SpecifiedUser")
  | v =>
      if isNonEmptyString v && dashboardTypes.contains (pyStr v) then ([], some (pyStr v))
      else
        ([⟨path ++ ".dashboardType",
           "Invalid dashboardType '" ++ pyStr v ++ "'. Must be one of: " ++ dashboardTypesSorted⟩],
         Option.none)

/-- One `dashboards[i]` entry of `validate_analytics_plan`. -/
def dashboardItemErrs (dashboardFoldersInPlan reportsSet : List String) (i : Nat)
    (dashboard : PyVal) : List VErr :=
  let path := dashboardPathOf i
  if ¬dashboard.isDict then [⟨path, "dashboard entry must be an object"⟩]
  else
    let folder := requiredStringValue dashboard "folder"
    let (typeErrs, dashboardType) := dashboardTypeResolve dashboard path
    requiredStringErrs dashboard "api_name" path
      ++ requiredStringErrs dashboard "folder" path
      ++ requiredStringErrs dashboard "title" path
      ++ typeErrs
      ++ (if dashboardType = some "SpecifiedUser"
              && !(isNonEmptyString (dashboard.getD "runningUser")) then
            [⟨path ++ ".runningUser", "runningUser is required when dashboardType is SpecifiedUser"⟩]
          else [])
      ++ preExistingErrs dashboard path
      ++ (if folder != "" && !(preExistingValue dashboard)
              && !(dashboardFoldersInPlan.contains folder) then
            [⟨path ++ ".folder",
              "Dashboard folder '" ++ folder
                ++ "' not found in plan dashboard_folders and not marked as pre_existing"⟩]
          else [])
      ++ dashboardSectionErrs reportsSet dashboard path "leftSection"
      ++ dashboardSectionErrs reportsSet dashboard path "middleSection"
      ++ dashboardSectionErrs reportsSet dashboard path "rightSection"

/-- The indexed loop over `dashboards`. -/
def dashboardsErrsAux (dashboardFoldersInPlan reportsSet : List String) :
    Nat → List PyVal → List VErr
  | _, [] => []
  | i, d :: rest =>
      dashboardItemErrs dashboardFoldersInPlan reportsSet i d
        ++ dashboardsErrsAux dashboardFoldersInPlan reportsSet (i + 1) rest

/-- The `report_folders` / `dashboard_folders` top-level block. -/
def foldersBlockErrs (sectionKey entryKind : String) (v : PyVal) : List VErr :=
  match v with
  | .none => []
  | .list fs => folderErrsAux sectionKey entryKind 0 fs
  | _ => [⟨sectionKey, sectionKey ++ " must be a list when provided"⟩]

/-- The `reports` top-level block. -/
def reportsBlockErrs (reportFoldersInPlan : List String) (v : PyVal) : List VErr :=
  match v with
  | .none => []
  | .list rs => reportsErrsAux reportFoldersInPlan 0 rs
  | _ => [⟨"reports", "reports must be a list when provided"⟩]

/-- The `dashboards` top-level block. -/
def dashboardsBlockErrs (dashboardFoldersInPlan reportsSet : List String) (v : PyVal) :
    List VErr :=
  match v with
  | .none => []
  | .list ds => dashboardsErrsAux dashboardFoldersInPlan reportsSet 0 ds
  | _ => [⟨"dashboards", "dashboards must be a list when provided"⟩]

/-- `validate_analytics_plan`. -/
def validateAnalyticsPlan (plan : PyVal) : List VErr :=
  if ¬plan.isDict then [⟨"plan", "Plan must be an object"⟩]
  else
    let reportFoldersVal := plan.getD "report_folders"
    let dashboardFoldersVal := plan.getD "dashboard_folders"
    let reportsVal := plan.getD "reports"
    let dashboardsVal := plan.getD "dashboards"
    let reportFoldersInPlan :=
      match reportFoldersVal with | .list fs => folderNamesSet fs | _ => []
    let dashboardFoldersInPlan :=
      match dashboardFoldersVal with | .list fs => folderNamesSet fs | _ => []
    let reportsSet := match reportsVal with | .list rs => reportsInPlan rs | _ => []
    foldersBlockErrs "report_folders" "report_folder" reportFoldersVal
      ++ foldersBlockErrs "dashboard_folders" "dashboard_folder" dashboardFoldersVal
      ++ reportsBlockErrs reportFoldersInPlan reportsVal
      ++ dashboardsBlockErrs dashboardFoldersInPlan reportsSet dashboardsVal

/-! ## Topology conflict checker (`src/app/services/conflict_checker.py`) -/

/-- One conflict finding as `_append_finding` builds it. -/
structure Finding where
  severity : String
  category : String
  message : String
deriving DecidableEq, Repr

/-- The dict `check_conflicts` returns. -/
structure ConflictResult where
  findings : List Finding
  overallSeverity : String
  greenCount : Nat
  yellowCount : Nat
  redCount : Nat
deriving DecidableEq, Repr

/-- `PLAN_TYPE_TO_SFDC_TYPE`. -/
def planTypeToSfdcType : List (String × String) :=
  [("Text", "string"), ("Number", "double"), ("Currency", "currency"), ("Date", "date"),
   ("DateTime", "datetime"), ("Checkbox", "boolean"), ("Picklist", "picklist"),
   ("MultiPicklist", "multipicklist"), ("Phone", "phone"), ("Email", "email"),
   ("Url", "url"), ("Percent", "percent"), ("TextArea", "textarea"),
   ("LongTextArea", "textarea"), ("Lookup", "reference"), ("MasterDetail", "reference")]

/-- `_normalize_type`.  A truthy non-string would make Python raise at
`.lower()`; plans carry strings here, and the unexercised crash path is
modelled as the `None` fallback. -/
def normalizeType (planType : PyVal) : Option String :=
  if ¬planType.truthy then Option.none
  else match planType with
    | .str s => some (pyLower ((planTypeToSfdcType.lookup s).getD s))
    | _ => Option.none

/-- `_build_field_map`. -/
def buildFieldMap (objectPayload : PyVal) : List (String × PyVal) :=
  match objectPayload.getOr "fields" (.list []) with
  | .list fields =>
      fields.foldl
        (fun m f =>
          if f.isDict then
            match f.get? "name" with
            | some (.str fieldName) =>
                if fieldName != "" then PyVal.mapInsert m fieldName f else m
            | _ => m
          else m)
        []
  | _ => []

/-- `_is_required_field`: `nillable is False and defaultValue is None`. -/
def isRequiredField (f : PyVal) : Bool :=
  (match f.get? "nillable" with | some (.bool false) => true | _ => false)
    && (match f.getD "defaultValue" with | .none => true | _ => false)

/-- One entry of a validation-rule list: a dict is active when `active` or
`isActive` is Python `True`; a non-dict counts when truthy. -/
def ruleIsActive (rule : PyVal) : Bool :=
  match rule with
  | .dict entries =>
      (match (PyVal.dict entries).get? "active" with | some (.bool true) => true | _ => false)
        || (match (PyVal.dict entries).get? "isActive" with
            | some (.bool true) => true | _ => false)
  | v => v.truthy

/-- The fields-scanning heuristic of `_has_active_validation_rules`. -/
def fieldHasValidationKey (f : PyVal) : Bool :=
  match f with
  | .dict entries => entries.any (fun p => pyContainsSub (pyLower p.1) "validation" && p.2.truthy)
  | _ => false

/-- `_has_active_validation_rules`. -/
def hasActiveValidationRules (objectPayload : PyVal) : Bool :=
  let fromRules :=
    match objectPayload.getD "validationRules" with
    | .list rules => rules.any ruleIsActive
    | .dict entries =>
        let vr : PyVal := .dict entries
        (match vr.getD "rules" with | .list rs => rs.any ruleIsActive | _ => false)
          || (match vr.getD "records" with | .list rs => rs.any ruleIsActive | _ => false)
          || (match vr.getD "items" with | .list rs => rs.any ruleIsActive | _ => false)
    | _ => false
  fromRules
    || (match objectPayload.getOr "fields" (.list []) with
        | .list fields => fields.any fieldHasValidationKey
        | _ => false)

/-- The per-plan-field comparison, shared verbatim between the
custom-object and standard-object sections of `check_conflicts`. -/
def conflictFieldFindings (objectName : String) (fieldMap : List (String × PyVal)) :
    List PyVal → List Finding
  | [] => []
  | pf :: rest =>
      (if pf.isDict then
         match pf.get? "api_name" with
         | some (.str fieldName) =>
             if fieldName = "" then []
             else
               match fieldMap.lookup fieldName with
               | Option.none =>
                   [⟨"green", "field_name",
                     objectName ++ "." ++ fieldName ++ " does not exist - safe to create"⟩]
               | some existingField =>
                   let existingType := pyLower (pyStr (existingField.getOr "type" (.str "")))
                   let planType :=
                     match normalizeType (pf.getD "type") with
                     | some t => t
                     | Option.none => pyLower (pyStr (pf.getOr "type" (.str "")))
                   if existingType = planType then
                     [⟨"yellow", "field_name",
                       objectName ++ "." ++ fieldName ++ " already exists with same type ("
                         ++ existingType ++ ")"⟩]
                   else
                     [⟨"red", "field_name",
                       objectName ++ "." ++ fieldName ++ " already exists with different type (existing="
                         ++ existingType ++ ", requested=" ++ planType ++ ")"⟩]
         | _ => []
       else []) ++ conflictFieldFindings objectName fieldMap rest

/-- One `custom_objects` entry of `check_conflicts`: field comparisons run
only when the object already exists (the source `continue`s otherwise). -/
def customObjectFindings (objects : PyVal) (customObject : PyVal) : List Finding :=
  if ¬customObject.isDict then []
  else
    match customObject.get? "api_name" with
    | some (.str objectName) =>
        if objectName = "" then []
        else
          match objects.get? objectName with
          | some (.dict payloadEntries) =>
              let payload : PyVal := .dict payloadEntries
              [⟨"red", "object_name", objectName ++ " already exists in topology snapshot"⟩]
                ++ (match customObject.getOr "fields" (.list []) with
                    | .list planFields =>
                        conflictFieldFindings objectName (buildFieldMap payload) planFields
                    | _ => [])
          | _ =>
              [⟨"green", "object_name", objectName ++ " does not exist - safe to create"⟩]
    | _ => []

/-- `planned_field_names` of the standard-object section. -/
def plannedFieldNames : List PyVal → List String
  | [] => []
  | pf :: rest =>
      (if pf.isDict then
         match pf.get? "api_name" with
         | some (.str n) => if n != "" then [n] else []
         | _ => []
       else []) ++ plannedFieldNames rest

/-- The always-yellow required-field sweep of the standard-object section. -/
def requiredFieldFindings (objectName : String) (plannedNames : List String) :
    List PyVal → List Finding
  | [] => []
  | f :: rest =>
      (if f.isDict then
         match f.get? "name" with
         | some (.str fieldName) =>
             if fieldName != "" && !(plannedNames.contains fieldName) && isRequiredField f then
               [⟨"yellow", "required_field",
                 objectName ++ " has required field '" ++ fieldName ++ "' not in deployment plan"⟩]
             else []
         | _ => []
       else []) ++ requiredFieldFindings objectName plannedNames rest

/-- One `standard_object_fields` entry of `check_conflicts`. -/
def standardObjectFindings (objects : PyVal) (standardObject : PyVal) : List Finding :=
  if ¬standardObject.isDict then []
  else
    match standardObject.get? "object" with
    | some (.str objectName) =>
        if objectName = "" then []
        else
          match objects.get? objectName with
          | some (.dict payloadEntries) =>
              let payload : PyVal := .dict payloadEntries
              let fieldMap := buildFieldMap payload
              let planFields :=
                match standardObject.getOr "fields" (.list []) with
                | .list fs => fs
                | _ => []
              let plannedNames := plannedFieldNames planFields
              [⟨"green", "standard_object", objectName ++ " exists in topology snapshot"⟩]
                ++ conflictFieldFindings objectName fieldMap planFields
                ++ (match payload.getOr "fields" (.list []) with
                    | .list existingFields =>
                        requiredFieldFindings objectName plannedNames existingFields
                    | _ => [])
                ++ (if hasActiveValidationRules payload then
                      [⟨"yellow", "validation_rule", objectName ++ " has active validation rules"⟩]
                    else [])
          | _ =>
              [⟨"red", "standard_object", objectName ++ " not found in topology snapshot"⟩]
    | _ => []

/-- `check_conflicts`. -/
def checkConflicts (deploymentPlan topologySnapshot : PyVal) : ConflictResult :=
  let objects : PyVal :=
    match topologySnapshot.getOr "objects" (.dict []) with
    | .dict entries => .dict entries
    | _ => .dict []
  let customFindings :=
    match deploymentPlan.getOr "custom_objects" (.list []) with
    | .list cos => (cos.map (customObjectFindings objects)).flatten
    | _ => []
  let standardFindings :=
    match deploymentPlan.getOr "standard_object_fields" (.list []) with
    | .list sos => (sos.map (standardObjectFindings objects)).flatten
    | _ => []
  let findings := customFindings ++ standardFindings
  let greenCount : Nat := (findings.filter (fun f => f.severity = "green")).length
  let yellowCount : Nat := (findings.filter (fun f => f.severity = "yellow")).length
  let redCount : Nat := (findings.filter (fun f => f.severity = "red")).length
  let overallSeverity :=
    if redCount > 0 then "red" else if yellowCount > 0 then "yellow" else "green"
  ⟨findings, overallSeverity, greenCount, yellowCount, redCount⟩

/-! ## Metadata package compiler (`src/app/services/metadata_builder.py`)

The compiler emits XML documents and a zip archive.  The model keeps the
structured content the claims are about: the manifest's `types` blocks
(type name and member list, in emission order) and the `<value>` elements
a picklist `valueSetDefinition` carries.  Byte-level XML serialisation
and zip packing carry no claim and are not modelled. -/

/-- `_strip_custom_suffix` (deploy_service.py and metadata_builder.py both
define it identically). -/
def stripCustomSuffix (apiName : String) : String :=
  if pyEndsWith apiName "__c" then pyDropRight apiName 3 else apiName

/-- `_derive_relationship_name`. -/
def deriveRelationshipName (fieldApiName : String) : String :=
  let base := stripCustomSuffix fieldApiName
  if pyEndsWith base "_Id" then pyDropRight base 3 else base

/-- One `<value>` element `_append_picklist_values` emits (fullName,
default, label text children; the sibling `<sorted>` element is fixed
`false` and not part of the value list). -/
structure PicklistValueXml where
  fullName : String
  default : Bool
  label : String
deriving DecidableEq, Repr

/-- The `or`-chain `value.get("fullName") or value.get("value") or
value.get("label") or f"Value_{index + 1}"`, rendered with `str`. -/
def picklistFullName (d : PyVal) (index : Nat) : String :=
  pyStr ((((d.getD "fullName").orElse (d.getD "value")).orElse (d.getD "label")).orElse
    (.str ("Value_" ++ toString (index + 1))))

/-- `bool(value.get("default", index == 0))`. -/
def picklistDefault (d : PyVal) (index : Nat) : Bool :=
  match d.get? "default" with
  | some dv => dv.truthy
  | Option.none => index == 0

/-- `_append_picklist_values` (metadata_builder.py:42-69), indexed by
`enumerate`: strings, structured objects, and an explicit fallback branch
for any other entry. -/
def appendPicklistValuesAux : Nat → List PyVal → List PicklistValueXml
  | _, [] => []
  | index, v :: rest =>
      (match v with
       | .str s => [⟨s, index == 0, s⟩]
       | .dict entries =>
           let d : PyVal := .dict entries
           let fullName := picklistFullName d index
           [⟨fullName, picklistDefault d index, pyStr ((d.getD "label").orElse (.str fullName))⟩]
       | _ =>
           let fullName := "Value_" ++ toString (index + 1)
           [⟨fullName, index == 0, fullName⟩])
        ++ appendPicklistValuesAux (index + 1) rest

/-- The `<value>` list of `_append_picklist_values`. -/
def appendPicklistValues (values : List PyVal) : List PicklistValueXml :=
  appendPicklistValuesAux 0 values

/-- `_build_picklist_values` (deploy_service.py:46-74): like the builder's
normalization but producing dicts, and with **no** fallback branch — an
entry that is neither a string nor a dict is skipped while `enumerate`
still advances the index. -/
def buildPicklistValuesAux : Nat → List PyVal → List PyVal
  | _, [] => []
  | index, v :: rest =>
      (match v with
       | .str s =>
           [.dict [("fullName", .str s), ("default", .bool (index == 0)),
                   ("label", .str s), ("isActive", .bool true)]]
       | .dict entries =>
           let d : PyVal := .dict entries
           let fullName := picklistFullName d index
           [.dict [("fullName", .str fullName),
                   ("default", .bool (picklistDefault d index)),
                   ("label", .str (pyStr ((d.getD "label").orElse (.str fullName)))),
                   ("isActive", .bool (match d.get? "isActive" with
                                       | some av => av.truthy
                                       | Option.none => true))]]
       | _ => [])
        ++ buildPicklistValuesAux (index + 1) rest

/-- The normalized list of `_build_picklist_values`. -/
def buildPicklistValues (values : List PyVal) : List PyVal :=
  buildPicklistValuesAux 0 values

/-- One `types` block of a `package.xml` / `destructiveChanges.xml`
manifest: the member names in emission order under one component type. -/
structure ManifestType where
  typeName : String
  members : List String
deriving DecidableEq, Repr

/-- `_package_xml_for_objects`: a single `CustomObject` block carrying the
names as given (no deduplication in the source). -/
def packageXmlForObjects (objectNames : List String) : List ManifestType :=
  [⟨"CustomObject", objectNames⟩]

/-- `_destructive_changes_xml`: identical block shape. -/
def destructiveChangesXml (objectNames : List String) : List ManifestType :=
  [⟨"CustomObject", objectNames⟩]

/-- The object selection of `build_custom_object_zip`. -/
def validCustomObjects (objects : List PyVal) : List PyVal :=
  objects.filter (fun co => co.isDict && getStrStripped co "api_name" != "")

/-- `object_names` of `build_custom_object_zip`:
`str(custom_object["api_name"]).strip()` over the valid objects. -/
def customObjectZipNames (objects : List PyVal) : List String :=
  (validCustomObjects objects).map (fun co => pyStrip (pyStr (co.getD "api_name")))

/-- The manifest of the archive `build_custom_object_zip` compiles. -/
def customObjectManifest (objects : List PyVal) : List ManifestType :=
  packageXmlForObjects (customObjectZipNames objects)

/-- The name normalisation of `build_destructive_deploy_zip`. -/
def destructiveDeployNames (objectNames : List String) : List String :=
  (objectNames.map (fun n => pyStrip n)).filter (fun n => n != "")

/-- The `destructiveChanges.xml` manifest of `build_destructive_deploy_zip`
(its `package.xml` is the empty manifest). -/
def destructiveDeployManifest (objectNames : List String) : List ManifestType :=
  destructiveChangesXml (destructiveDeployNames objectNames)

/-- `dict.fromkeys(...)` with fuel (one unit per element) keeping the
recursion structural; first occurrence kept, order preserved. -/
def dedupKeepFirstFuel : Nat → List String → List String
  | _, [] => []
  | 0, l => l
  | Nat.succ fuel, x :: rest => x :: dedupKeepFirstFuel fuel (rest.filter (fun y => y ≠ x))

/-- `list(dict.fromkeys(names))`. -/
def dedupKeepFirst (names : List String) : List String :=
  dedupKeepFirstFuel names.length names

/-- The `report_folders` selection shared, expression for expression, by
`build_analytics_deploy_zip` (metadata_builder.py:658-662) and
`execute_analytics_deployment` (deploy_service.py:462-466). -/
def analyticsReportFolders (plan : PyVal) : List PyVal :=
  match plan.getD "report_folders" with
  | .list fs => fs.filter (fun f => f.isDict && getStrStripped f "api_name" != "")
  | _ => []

/-- The `dashboard_folders` selection (metadata_builder.py:663-667,
deploy_service.py:467-471). -/
def analyticsDashboardFolders (plan : PyVal) : List PyVal :=
  match plan.getD "dashboard_folders" with
  | .list fs => fs.filter (fun f => f.isDict && getStrStripped f "api_name" != "")
  | _ => []

/-- The `reports` selection (metadata_builder.py:668-674,
deploy_service.py:472-478). -/
def analyticsReports (plan : PyVal) : List PyVal :=
  match plan.getD "reports" with
  | .list rs =>
      rs.filter (fun r =>
        r.isDict && getStrStripped r "api_name" != "" && getStrStripped r "folder" != "")
  | _ => []

/-- The `dashboards` selection (metadata_builder.py:675-681,
deploy_service.py:479-485). -/
def analyticsDashboards (plan : PyVal) : List PyVal :=
  match plan.getD "dashboards" with
  | .list ds =>
      ds.filter (fun d =>
        d.isDict && getStrStripped d "api_name" != "" && getStrStripped d "folder" != "")
  | _ => []

/-- The fully-qualified name `"{folder}/{api_name}"` of a report or
dashboard spec. -/
def analyticsFqn (entry : PyVal) : String :=
  getStrStripped entry "folder" ++ "/" ++ getStrStripped entry "api_name"

/-- `report_folder_members` of `build_analytics_deploy_zip`. -/
def reportFolderMembers (plan : PyVal) : List String :=
  dedupKeepFirst ((analyticsReportFolders plan).map (fun f => getStrStripped f "api_name"))

/-- `dashboard_folder_members` of `build_analytics_deploy_zip`. -/
def dashboardFolderMembers (plan : PyVal) : List String :=
  dedupKeepFirst ((analyticsDashboardFolders plan).map (fun f => getStrStripped f "api_name"))

/-- `report_members` of `build_analytics_deploy_zip`. -/
def reportMembers (plan : PyVal) : List String :=
  dedupKeepFirst ((analyticsReports plan).map analyticsFqn)

/-- `dashboard_members` of `build_analytics_deploy_zip`. -/
def dashboardMembers (plan : PyVal) : List String :=
  dedupKeepFirst ((analyticsDashboards plan).map analyticsFqn)

/-- `_package_xml_for_analytics`: one block per non-empty member list, in
ReportFolder, Report, DashboardFolder, Dashboard order. -/
def packageXmlForAnalytics (reportFolderM reportM dashboardFolderM dashboardM : List String) :
    List ManifestType :=
  (if reportFolderM.isEmpty then [] else [⟨"ReportFolder", reportFolderM⟩])
    ++ (if reportM.isEmpty then [] else [⟨"Report", reportM⟩])
    ++ (if dashboardFolderM.isEmpty then [] else [⟨"DashboardFolder", dashboardFolderM⟩])
    ++ (if dashboardM.isEmpty then [] else [⟨"Dashboard", dashboardM⟩])

/-- The manifest of the archive `build_analytics_deploy_zip` compiles. -/
def analyticsManifest (plan : PyVal) : List ManifestType :=
  packageXmlForAnalytics (reportFolderMembers plan) (reportMembers plan)
    (dashboardFolderMembers plan) (dashboardMembers plan)

/-- `_destructive_changes_analytics_xml`: Dashboard, Report,
DashboardFolder, ReportFolder order (children before folders). -/
def destructiveChangesAnalyticsXml (reportFolders dashboardFolders reports dashboards : List String) :
    List ManifestType :=
  (if dashboards.isEmpty then [] else [⟨"Dashboard", dashboards⟩])
    ++ (if reports.isEmpty then [] else [⟨"Report", reports⟩])
    ++ (if dashboardFolders.isEmpty then [] else [⟨"DashboardFolder", dashboardFolders⟩])
    ++ (if reportFolders.isEmpty then [] else [⟨"ReportFolder", reportFolders⟩])

/-- The planned component list of `execute_analytics_deployment`
(deploy_service.py:487-509), built from the same selections. -/
def plannedAnalyticsComponents (plan : PyVal) : List (String × String) :=
  ((analyticsReportFolders plan).map (fun f => ("report_folder", getStrStripped f "api_name")))
    ++ ((analyticsDashboardFolders plan).map (fun f => ("dashboard_folder", getStrStripped f "api_name")))
    ++ ((analyticsReports plan).map (fun r => ("report", analyticsFqn r)))
    ++ ((analyticsDashboards plan).map (fun d => ("dashboard", analyticsFqn d)))

/-! ## Deployment orchestrator (`src/app/services/deploy_service.py`) -/

/-- An error object `{"code": ..., "message": ...}` attached to a failed
component. -/
structure ErrInfo where
  code : String
  message : String
deriving DecidableEq, Repr

/-- One per-component outcome dict as the orchestrator builds them.
`sfdcId` is the `"sfdc_id"` value with Python `None` encoded as
`PyVal.none` (result dicts built without the key keep the default);
`skipped`/`reason` are set only by the rollback skip path, mirroring the
keys the source adds there. -/
structure ComponentResult where
  ctype : String
  apiName : String
  success : Bool
  sfdcId : PyVal := .none
  error : Option ErrInfo := Option.none
  skipped : Bool := false
  reason : Option String := Option.none

/-- `_soql_escape`. -/
def soqlEscape (value : String) : String :=
  pyReplace (pyReplace value "\\" "\\\\") "'" "\\'"

/-- `_normalize_error`. -/
def normalizeError (error : PyVal) : ErrInfo :=
  match error with
  | .dict entries =>
      let d : PyVal := .dict entries
      ⟨pyStr (((d.getD "code").orElse (d.getD "errorCode")).orElse (.str "unknown_error")),
       pyStr ((d.getD "message").orElse (.str "Unknown Salesforce error"))⟩
  | v => ⟨"unknown_error", pyStr v⟩

/-- `exc.detail if isinstance(exc.detail, dict) else {"message": str(exc.detail)}`. -/
def detailAsDict (detail : PyVal) : PyVal :=
  if detail.isDict then detail else .dict [("message", .str (pyStr detail))]

/-- `_extract_tooling_error`. -/
def extractToolingError (response : PyVal) : ErrInfo :=
  match response.getD "errors" with
  | .list (e :: _) => normalizeError e
  | _ => ⟨"salesforce_request_failed", "Salesforce request failed"⟩

/-- `_resolve_deployment_status` (deploy_service.py:123-128). -/
def resolveDeploymentStatus (total succeeded : Nat) : String :=
  if total = 0 ∨ succeeded = 0 then "failed"
  else if succeeded = total then "succeeded"
  else "partial"

/-- `_as_dict_list`. -/
def asDictList (v : PyVal) : List PyVal :=
  match v with
  | .list items => items.filter (fun item => item.isDict)
  | .dict entries => [.dict entries]
  | _ => []

/-- `_metadata_status`. -/
def metadataStatus (metadataResult : PyVal) : String :=
  let fromDeployResult :=
    match metadataResult.getD "deployResult" with
    | .dict entries =>
        let status := (PyVal.dict entries).getD "status"
        if status.truthy then some (pyStr status) else Option.none
    | _ => Option.none
  match fromDeployResult with
  | some s => s
  | Option.none =>
      let status := metadataResult.getD "status"
      if status.truthy then pyStr status else "Unknown"

/-- One iteration of the map-building loops of `_metadata_component_maps`:
store the component under its stripped `fullName` when non-empty. -/
def insertComponentByFullName (m : List (String × PyVal)) (component : PyVal) :
    List (String × PyVal) :=
  let fullName := getStrStripped component "fullName"
  if fullName != "" then PyVal.mapInsert m fullName component else m

/-- `_metadata_component_maps`: `(success_map, failure_map)`. -/
def metadataComponentMaps (metadataResult : PyVal) :
    List (String × PyVal) × List (String × PyVal) :=
  match metadataResult.getD "deployResult" with
  | .dict drEntries =>
      match (PyVal.dict drEntries).getD "details" with
      | .dict dEntries =>
          let details : PyVal := .dict dEntries
          ((asDictList (details.getD "componentSuccesses")).foldl insertComponentByFullName [],
           (asDictList (details.getD "componentFailures")).foldl insertComponentByFullName [])
      | _ => ([], [])
  | _ => ([], [])

/-- `_metadata_failure_to_error`. -/
def metadataFailureToError (failure : PyVal) : ErrInfo :=
  ⟨pyStr (((failure.getD "problemType").orElse (failure.getD "errorCode")).orElse
      (.str "metadata_deploy_failed")),
   pyStr ((((failure.getD "problem").orElse (failure.getD "errorMessage")).orElse
      (failure.getD "message")).orElse (.str "Metadata deploy failed"))⟩

/-- `_metadata_failure_component`. -/
def metadataFailureComponent (componentType apiName : String) (detail : PyVal) :
    ComponentResult :=
  { ctype := componentType, apiName := apiName, success := false,
    error := some (normalizeError (if detail.isDict then detail
                                   else .dict [("message", .str (pyStr detail))])) }

/-- `bool(optional_component)`: Python truthiness of a map lookup. -/
def lookupTruthy (v : Option PyVal) : Bool :=
  match v with
  | some x => x.truthy
  | Option.none => false

/-- The success resolution shared by every reconciliation loop:
`success = bool(successful) and not bool(failed)`, then the
status-`Succeeded` fallback when neither map names the component. -/
def reconcileSuccessFlag (successfulComponent failedComponent : Option PyVal)
    (deployStatus : String) : Bool :=
  let success := lookupTruthy successfulComponent && !(lookupTruthy failedComponent)
  if !success && !(lookupTruthy failedComponent) && deployStatus = "Succeeded" then true
  else success

/-- `(successful_component or {}).get("id") or
(successful_component or {}).get("componentId")`. -/
def reconcileSfdcId (successfulComponent : Option PyVal) : PyVal :=
  let sc := successfulComponent.getD (.dict [])
  (sc.getD "id").orElse (sc.getD "componentId")

/-- The body of the planned-component reconciliation loop before any
verification (deploy_service.py:878-903; the analytics, workflow and
rollback loops repeat it with their own generic message). -/
def reconcileComponent (successMap failureMap : List (String × PyVal))
    (deployStatus genericMessage componentType apiName : String) : ComponentResult :=
  let failedComponent := failureMap.lookup apiName
  let successfulComponent := successMap.lookup apiName
  let success := reconcileSuccessFlag successfulComponent failedComponent deployStatus
  { ctype := componentType, apiName := apiName, success := success,
    sfdcId := reconcileSfdcId successfulComponent,
    error :=
      if success then Option.none
      else some (match failedComponent with
                 | some f =>
                     if f.truthy then metadataFailureToError f
                     else ⟨"metadata_deploy_failed", genericMessage ++ deployStatus⟩
                 | Option.none => ⟨"metadata_deploy_failed", genericMessage ++ deployStatus⟩) }

/-- `_build_field_metadata` (deploy_service.py:77-120). -/
def buildFieldMetadata (field : PyVal) : PyVal :=
  let fieldType := pyStrip (pyStr (field.getOr "type" (.str "")))
  let label := pyStr (((field.getD "label").orElse (field.getD "api_name")).orElse (.str "Field"))
  let base : List (String × PyVal) := [("type", .str fieldType), ("label", .str label)]
  let withRequired := base ++
    (match field.get? "required" with
     | some v => [("required", PyVal.bool v.truthy)]
     | Option.none => [])
  let typeSpecific : List (String × PyVal) :=
    if fieldType = "Text" then
      [("length", .int (pyToInt (field.getOr "length" (.int 255))))]
    else if fieldType = "Number" ∨ fieldType = "Currency" ∨ fieldType = "Percent" then
      [("precision", .int (pyToInt (field.getOr "precision" (.int 18)))),
       ("scale", .int (pyToInt (field.getOr "scale" (.int 2))))]
    else if fieldType = "Checkbox" then
      [("defaultValue", .bool (field.getOr "default" (field.getOr "default_value" (.bool false))).truthy)]
    else if fieldType = "Picklist" then
      let values := match field.getD "values" with | .list vs => vs | _ => []
      [("valueSet", .dict
        [("restricted", .bool (field.getOr "restricted" (.bool true)).truthy),
         ("valueSetDefinition", .dict
           [("sorted", .bool (field.getOr "sorted" (.bool false)).truthy),
            ("value", .list (buildPicklistValues values))])])]
    else if fieldType = "LongTextArea" then
      [("length", .int (pyToInt (field.getOr "length" (.int 32768)))),
       ("visibleLines", .int (pyToInt (field.getOr "visible_lines" (field.getOr "visibleLines" (.int 3)))))]
    else if fieldType = "Lookup" then
      [("referenceTo", .str (pyStr (((field.getD "related_to").orElse (field.getD "referenceTo")).orElse (.str "")))),
       ("relationshipName", .str (pyStr (((field.getD "relationship_name").orElse (field.getD "relationshipName")).orElse
         (.str (deriveRelationshipName (pyStr (field.getOr "api_name" (.str "")))))))),
       ("deleteConstraint", .str (pyStr (((field.getD "delete_constraint").orElse (field.getD "deleteConstraint")).orElse (.str "SetNull"))))]
    else if fieldType = "MasterDetail" then
      [("referenceTo", .str (pyStr (((field.getD "related_to").orElse (field.getD "referenceTo")).orElse (.str "")))),
       ("relationshipName", .str (pyStr (((field.getD "relationship_name").orElse (field.getD "relationshipName")).orElse
         (.str (deriveRelationshipName (pyStr (field.getOr "api_name" (.str ""))))))))]
    else []
  .dict (withRequired ++ typeSpecific)

/-- What `metadata_deploy_and_poll` is handed, at the model's level of
detail: which builder produced the archive and from what input. -/
inductive DeployZip where
  | customObjects (objects : List PyVal)
  | destructiveObjects (objectNames : List String)

/-- Outcomes of the awaited gateway and database calls the orchestrator
makes.  Each field stands for one remote function; `.error e` is a raised
`HTTPException` with detail `e` (for `autoMap`, any raised `Exception`). -/
structure Gateway where
  metadataDeployAndPoll : DeployZip → Except PyVal PyVal
  toolingQuery : String → Except PyVal (List PyVal)
  toolingCreateCustomField : String → String → PyVal → Except PyVal PyVal
  toolingDelete : String → String → Except PyVal PyVal
  autoMap : Except PyVal Unit

/-- `str(record_id) if record_id else None` over `records[0].get("Id")`. -/
def firstRecordId (records : List PyVal) : Option String :=
  match records with
  | [] => Option.none
  | r :: _ =>
      let recordId := r.getD "Id"
      if recordId.truthy then some (pyStr recordId) else Option.none

/-- `_resolve_object_id`. -/
def resolveObjectId (g : Gateway) (objectApiName : String) : Except PyVal (Option String) :=
  let developerName := stripCustomSuffix objectApiName
  let soql := "SELECT Id FROM CustomObject WHERE DeveloperName = '"
    ++ soqlEscape developerName ++ "' ORDER BY CreatedDate DESC LIMIT 1"
  match g.toolingQuery soql with
  | .error e => .error e
  | .ok records => .ok (firstRecordId records)

/-- `_resolve_field_id`. -/
def resolveFieldId (g : Gateway) (fullName : String) : Except PyVal (Option String) :=
  if ¬(pyContainsChar fullName '.') then .ok Option.none
  else
    let parts := pySplitFirst fullName '.'
    let objectName := parts.1
    let fieldApiName := parts.2
    let developerName := stripCustomSuffix fieldApiName
    let tableStep : Except PyVal String :=
      if pyEndsWith objectName "__c" then
        match resolveObjectId g objectName with
        | .error e => .error e
        | .ok (some objectId) =>
            .ok (if objectId != "" then objectId else objectName)
        | .ok Option.none => .ok objectName
      else .ok objectName
    match tableStep with
    | .error e => .error e
    | .ok tableEnumOrId =>
        let soql := "SELECT Id FROM CustomField WHERE DeveloperName = '"
          ++ soqlEscape developerName ++ "' AND TableEnumOrId = '"
          ++ soqlEscape tableEnumOrId ++ "' ORDER BY CreatedDate DESC LIMIT 1"
        match g.toolingQuery soql with
        | .error e => .error e
        | .ok records => .ok (firstRecordId records)

/-- The invalid-entry component appended when a custom object has no
`api_name` (deploy_service.py:788-798). -/
def missingObjectComponent : ComponentResult :=
  { ctype := "custom_object", apiName := "", success := false,
    error := some ⟨"invalid_plan", "Custom object entry is missing api_name"⟩ }

/-- One entry of the first pass of `execute_deployment` (lines 781-801). -/
def collectMetadataStep (acc : List ComponentResult × List PyVal) (co : PyVal) :
    List ComponentResult × List PyVal :=
  if ¬co.isDict then acc
  else if getStrStripped co "api_name" = "" then (acc.1 ++ [missingObjectComponent], acc.2)
  else (acc.1, acc.2 ++ [co])

/-- The first pass of `execute_deployment` (lines 781-801): collect the
invalid-entry components and the objects handed to the metadata builder. -/
def collectMetadataObjects (customObjects : List PyVal) :
    List ComponentResult × List PyVal :=
  customObjects.foldl collectMetadataStep ([], [])

/-- A planned field or relationship kept for the verification fallback:
`planned_field_specs[full_name]`. -/
structure PlannedFieldSpec where
  objectName : String
  fieldApiName : String
  metadata : PyVal

/-- One entry of the planning loop over a `fields` or `relationships`
list (lines 810-866). -/
def planFieldsStep (objectApiName ctype missingMessagePrefix : String)
    (acc : List ComponentResult × List (String × String) × List (String × PlannedFieldSpec))
    (field : PyVal) :
    List ComponentResult × List (String × String) × List (String × PlannedFieldSpec) :=
  if ¬field.isDict then acc
  else
    let fieldApiName := getStrStripped field "api_name"
    if fieldApiName = "" then
      (acc.1 ++ [{ ctype := ctype, apiName := objectApiName ++ ".", success := false,
                   error := some ⟨"invalid_plan",
                     missingMessagePrefix ++ objectApiName ++ " is missing api_name"⟩ }],
       acc.2.1, acc.2.2)
    else
      let fullName := objectApiName ++ "." ++ fieldApiName
      (acc.1, acc.2.1 ++ [(ctype, fullName)],
       acc.2.2 ++ [(fullName, ⟨objectApiName, fieldApiName, buildFieldMetadata field⟩)])

/-- The planning loop over one object's `fields` or `relationships` list
(lines 810-866): invalid entries become components, valid ones planned
components plus a field spec. -/
def planFieldsOf (objectApiName ctype missingMessagePrefix : String) (fields : List PyVal) :
    List ComponentResult × List (String × String) × List (String × PlannedFieldSpec) :=
  fields.foldl (planFieldsStep objectApiName ctype missingMessagePrefix) ([], [], [])

/-- The planning pass for one metadata custom object (lines 806-866). -/
def planMetadataObject (co : PyVal) :
    List ComponentResult × List (String × String) × List (String × PlannedFieldSpec) :=
  let objectApiName := getStrStripped co "api_name"
  let fieldsList := match co.getD "fields" with | .list fs => fs | _ => []
  let (fieldComps, fieldPlanned, fieldSpecs) :=
    planFieldsOf objectApiName "custom_field" "Field entry for " fieldsList
  let relsList := match co.getD "relationships" with | .list rs => rs | _ => []
  let (relComps, relPlanned, relSpecs) :=
    planFieldsOf objectApiName "relationship" "Relationship entry for " relsList
  (fieldComps ++ relComps,
   ("custom_object", objectApiName) :: (fieldPlanned ++ relPlanned),
   fieldSpecs ++ relSpecs)

/-- One object of the planning pass over all metadata custom objects. -/
def planMetadataStep
    (acc : List ComponentResult × List (String × String) × List (String × PlannedFieldSpec))
    (co : PyVal) :
    List ComponentResult × List (String × String) × List (String × PlannedFieldSpec) :=
  let (comps, planned, specs) := planMetadataObject co
  (acc.1 ++ comps, acc.2.1 ++ planned, acc.2.2 ++ specs)

/-- The planning pass over all metadata custom objects. -/
def planMetadataObjects (objs : List PyVal) :
    List ComponentResult × List (String × String) × List (String × PlannedFieldSpec) :=
  objs.foldl planMetadataStep ([], [], [])

/-- The counter increments of lines 943-948, keyed by component type. -/
def countersFor (componentType : String) : Nat × Nat × Nat :=
  if componentType = "custom_object" then (1, 0, 0)
  else if componentType = "custom_field" then (0, 1, 0)
  else if componentType = "relationship" then (0, 0, 1)
  else (0, 0, 0)

/-- Componentwise sum of (objects, fields, relationships) counters. -/
def addCounters (a b : Nat × Nat × Nat) : Nat × Nat × Nat :=
  (a.1 + b.1, a.2.1 + b.2.1, a.2.2 + b.2.2)

/-- One iteration of the reconciliation-and-verification loop of
`execute_deployment` (lines 878-950): reconcile, then for a provisionally
successful field-like component resolve its id, fall back to the Tooling
create, or fail verification.  `.error` is a gateway raise inside the
body, which in the source escapes before `components.append`. -/
def deployVerifyOne (g : Gateway) (successMap failureMap : List (String × PyVal))
    (deployStatus : String) (specs : List (String × PlannedFieldSpec))
    (componentType apiName : String) : Except PyVal ComponentResult :=
  let c := reconcileComponent successMap failureMap deployStatus
    "Metadata deploy ended with status " componentType apiName
  if ¬c.success then .ok c
  else if componentType = "custom_field" ∨ componentType = "relationship" then
    match resolveFieldId g apiName with
    | .error e => .error e
    | .ok (some resolvedFieldId) => .ok { c with sfdcId := .str resolvedFieldId }
    | .ok Option.none =>
        match specs.lookup apiName with
        | some fieldSpec =>
            match g.toolingCreateCustomField fieldSpec.objectName fieldSpec.fieldApiName
                fieldSpec.metadata with
            | .error e => .error e
            | .ok createResponse =>
                let createSuccess := (createResponse.getD "success").truthy
                .ok { c with
                      success := createSuccess,
                      sfdcId := createResponse.getD "id",
                      error := if createSuccess then Option.none
                               else some (extractToolingError createResponse) }
        | Option.none =>
            .ok { c with
                  success := false,
                  error := some ⟨"field_verification_failed",
                    "Could not verify or create field " ++ apiName⟩ }
  else .ok c

/-- The reconciliation-and-verification loop over the planned components:
the components appended so far, the counters, and the raised detail when a
gateway call inside the loop raised (the source's `except HTTPException`
then takes over with the partial component list kept). -/
def deployVerifyLoop (g : Gateway) (successMap failureMap : List (String × PyVal))
    (deployStatus : String) (specs : List (String × PlannedFieldSpec)) :
    List (String × String) → List ComponentResult × (Nat × Nat × Nat) × Option PyVal
  | [] => ([], (0, 0, 0), Option.none)
  | (componentType, apiName) :: rest =>
      match deployVerifyOne g successMap failureMap deployStatus specs componentType apiName with
      | .error e => ([], (0, 0, 0), some e)
      | .ok c =>
          let (comps, counters, exn) :=
            deployVerifyLoop g successMap failureMap deployStatus specs rest
          (c :: comps,
           addCounters (if c.success then countersFor componentType else (0, 0, 0)) counters,
           exn)

/-- The bulk metadata phase of `execute_deployment` (lines 803-975): the
planning pass, the `metadata_deploy_and_poll` call, the reconciliation
loop, the advisory auto-mapping `try`, and the `except HTTPException`
handler that appends a failure component for every planned component. -/
def deployMetadataPhase (g : Gateway) (metadataCustomObjects : List PyVal) :
    List ComponentResult × (Nat × Nat × Nat) :=
  let (invalidComps, planned, specs) := planMetadataObjects metadataCustomObjects
  match g.metadataDeployAndPoll (.customObjects metadataCustomObjects) with
  | .error e =>
      (invalidComps ++ planned.map (fun p => metadataFailureComponent p.1 p.2 e), (0, 0, 0))
  | .ok metadataResult =>
      let deployStatus := metadataStatus metadataResult
      let (successMap, failureMap) := metadataComponentMaps metadataResult
      let (loopComps, counters, exn) :=
        deployVerifyLoop g successMap failureMap deployStatus specs planned
      match exn with
      | some e =>
          (invalidComps ++ loopComps
             ++ planned.map (fun p => metadataFailureComponent p.1 p.2 e), counters)
      | Option.none =>
          -- `try: await _best_effort_auto_map_custom_objects(...) except
          -- Exception: logger.exception(...)`: every raise from the upsert is
          -- caught (HTTPException included, being an Exception subclass) and
          -- only logged, so the outcome does not reach the result.
          match g.autoMap with
          | .ok _ => (invalidComps ++ loopComps, counters)
          | .error _ => (invalidComps ++ loopComps, counters)

/-- The invalid-entry component for a standard-object field without
`api_name` (lines 996-1006). -/
def missingStdFieldComponent (objectName : String) : ComponentResult :=
  { ctype := "custom_field", apiName := objectName ++ ".", success := false,
    error := some ⟨"invalid_plan", "Field entry for " ++ objectName ++ " is missing api_name"⟩ }

/-- The inner loop over one standard-object entry's fields (lines
991-1027); a gateway raise propagates out of `execute_deployment`. -/
def stdFieldsLoop (g : Gateway) (objectName : String) :
    List PyVal → Except PyVal (List ComponentResult × Nat)
  | [] => .ok ([], 0)
  | field :: rest =>
      if ¬field.isDict then stdFieldsLoop g objectName rest
      else
        let fieldApiName := getStrStripped field "api_name"
        if fieldApiName = "" then
          match stdFieldsLoop g objectName rest with
          | .error e => .error e
          | .ok (comps, n) => .ok (missingStdFieldComponent objectName :: comps, n)
        else
          match g.toolingCreateCustomField objectName fieldApiName (buildFieldMetadata field) with
          | .error e => .error e
          | .ok fieldResponse =>
              let fieldSuccess := (fieldResponse.getD "success").truthy
              let comp : ComponentResult :=
                { ctype := "custom_field", apiName := objectName ++ "." ++ fieldApiName,
                  success := fieldSuccess, sfdcId := fieldResponse.getD "id",
                  error := if fieldSuccess then Option.none
                           else some (extractToolingError fieldResponse) }
              match stdFieldsLoop g objectName rest with
              | .error e => .error e
              | .ok (comps, n) => .ok (comp :: comps, (if fieldSuccess then 1 else 0) + n)

/-- The loop over `standard_object_fields` entries (lines 981-1027). -/
def stdEntriesLoop (g : Gateway) : List PyVal → Except PyVal (List ComponentResult × Nat)
  | [] => .ok ([], 0)
  | entry :: rest =>
      if ¬entry.isDict then stdEntriesLoop g rest
      else
        let objectName := getStrStripped entry "object"
        if objectName = "" then stdEntriesLoop g rest
        else
          match entry.getD "fields" with
          | .list fields =>
              match stdFieldsLoop g objectName fields with
              | .error e => .error e
              | .ok (comps, n) =>
                  match stdEntriesLoop g rest with
                  | .error e => .error e
                  | .ok (restComps, restN) => .ok (comps ++ restComps, n + restN)
          | _ => stdEntriesLoop g rest

/-- The dict `execute_deployment` returns. -/
structure DeployResult where
  status : String
  objectsCreated : Nat
  fieldsCreated : Nat
  relationshipsCreated : Nat
  components : List ComponentResult

/-- `errors` payload of the `invalid_deploy_plan` HTTPException. -/
def validationErrorsPayload (errors : List VErr) : PyVal :=
  .list (errors.map (fun e => .dict [("field", .str e.field), ("message", .str e.message)]))

/-- `execute_deployment` (deploy_service.py:756-1037), with the gateway
abstracted as `Gateway`.  `.error` is the raised HTTPException detail:
the `invalid_deploy_plan` 400 on validation failure, or an uncaught raise
from the standard-object field loop. -/
def executeDeployment (plan : PyVal) (g : Gateway) : Except PyVal DeployResult :=
  let validationErrors := validateCustomObjectPlan plan
  if ¬validationErrors.isEmpty then
    .error (.dict [("code", .str "invalid_deploy_plan"),
                   ("errors", validationErrorsPayload validationErrors)])
  else
    let customObjects := match plan.getD "custom_objects" with | .list l => l | _ => []
    let (invalidObjectComps, metadataCustomObjects) := collectMetadataObjects customObjects
    let (metaComps, counters) :=
      if ¬metadataCustomObjects.isEmpty then deployMetadataPhase g metadataCustomObjects
      else ([], (0, 0, 0))
    let stdEntries := match plan.getD "standard_object_fields" with | .list l => l | _ => []
    match stdEntriesLoop g stdEntries with
    | .error e => .error e
    | .ok (stdComps, stdFieldsCreated) =>
        let components := (invalidObjectComps ++ metaComps) ++ stdComps
        let totalComponents := components.length
        let successfulComponents := (components.filter (fun c => c.success)).length
        .ok { status := resolveDeploymentStatus totalComponents successfulComponents,
              objectsCreated := counters.1,
              fieldsCreated := counters.2.1 + stdFieldsCreated,
              relationshipsCreated := counters.2.2,
              components := components }

/-- The failure component the `except HTTPException` branch of
`_rollback_component` returns. -/
def rollbackHttpexcComponent (componentType apiName : String) (detail : PyVal) :
    ComponentResult :=
  { ctype := componentType, apiName := apiName, success := false,
    error := some (normalizeError (detailAsDict detail)) }

/-- `_rollback_component` (deploy_service.py:1097-1160). -/
def rollbackComponent (g : Gateway) (component : PyVal) : ComponentResult :=
  let componentType := pyStr (component.getOr "type" (.str ""))
  let apiName := getStr component "api_name"
  if componentType = "custom_field" ∨ componentType = "relationship" then
    let resolvedStep : Except PyVal PyVal :=
      if apiName != "" then
        match resolveFieldId g apiName with
        | .error e => .error e
        | .ok (some fieldId) => .ok (.str fieldId)
        | .ok Option.none => .ok .none
      else .ok (component.getD "sfdc_id")
    match resolvedStep with
    | .error e => rollbackHttpexcComponent componentType apiName e
    | .ok resolvedInitial =>
        let resolvedId :=
          if ¬resolvedInitial.truthy && (component.getD "sfdc_id").truthy then
            PyVal.str (pyStr (component.getD "sfdc_id"))
          else resolvedInitial
        if ¬resolvedId.truthy then
          { ctype := componentType, apiName := apiName, success := false,
            error := some ⟨"not_found", "Could not resolve Salesforce field ID for rollback"⟩ }
        else
          match g.toolingDelete "CustomField" (pyStr resolvedId) with
          | .error e => rollbackHttpexcComponent componentType apiName e
          | .ok deleteResult =>
              let deleteSuccess := (deleteResult.getD "success").truthy
              { ctype := componentType, apiName := apiName, success := deleteSuccess,
                sfdcId := .str (pyStr resolvedId),
                error := if deleteSuccess then Option.none
                         else some (extractToolingError deleteResult) }
  else
    { ctype := componentType, apiName := apiName, success := false,
      error := some ⟨"unsupported_component",
        "Rollback is not supported for component type " ++ componentType⟩ }

/-- The successful components of a prior deployment result
(deploy_service.py:1172-1176). -/
def successfulComponentsOf (deploymentResult : PyVal) : List PyVal :=
  let components :=
    match deploymentResult.getD "components" with | .list l => l | _ => []
  components.filter (fun c => c.isDict && (c.getD "success").truthy)

/-- `str(component.get("type")) in {"custom_field", "relationship"}`. -/
def isFieldLikeComponent (c : PyVal) : Bool :=
  let t := pyStr (c.getD "type")
  t = "custom_field" || t = "relationship"

/-- `str(component.get("type")) == "custom_object"`. -/
def isObjectComponent (c : PyVal) : Bool :=
  pyStr (c.getD "type") = "custom_object"

/-- The skip entry for a field whose parent object is being destroyed
(deploy_service.py:1199-1208). -/
def rollbackSkipEntry (c : PyVal) (apiName : String) : ComponentResult :=
  { ctype := pyStr ((c.getD "type").orElse (.str "custom_field")),
    apiName := apiName, success := true, sfdcId := c.getD "sfdc_id",
    skipped := true, reason := some "Deleted with parent custom object" }

/-- `api_name.split(".", 1)[0] if "." in api_name else ""`. -/
def parentObjectOf (apiName : String) : String :=
  if pyContainsChar apiName '.' then (pySplitFirst apiName '.').1 else ""

/-- The loop over `reversed(field_like_components)`
(deploy_service.py:1195-1217); the caller passes the reversed list. -/
def rollbackFieldPhase (g : Gateway) (objectNamesForDelete : List String) :
    List PyVal → List ComponentResult
  | [] => []
  | c :: rest =>
      (let apiName := getStrStripped c "api_name"
       let objectName := parentObjectOf apiName
       if objectName != "" && objectNamesForDelete.contains objectName then
         [rollbackSkipEntry c apiName]
       else [rollbackComponent g c])
        ++ rollbackFieldPhase g objectNamesForDelete rest

/-- `object_names_in_order` (lines 1220-1224): non-empty stripped names
over `reversed(object_components)`. -/
def rollbackObjectNamesInOrder (objectComponents : List PyVal) : List String :=
  (objectComponents.reverse.map (fun c => getStrStripped c "api_name")).filter
    (fun n => n != "")

/-- `object_names_for_deploy = list(dict.fromkeys(object_names_in_order))`. -/
def rollbackObjectDeployNames (objectComponents : List PyVal) : List String :=
  dedupKeepFirst (rollbackObjectNamesInOrder objectComponents)

/-- The per-object result of the destructive-deploy reconciliation loop
(lines 1236-1267). -/
def rollbackObjectResult (successMap failureMap : List (String × PyVal))
    (deployStatus : String) (c : PyVal) (apiName : String) : ComponentResult :=
  let failedComponent := failureMap.lookup apiName
  let successfulComponent := successMap.lookup apiName
  let success := reconcileSuccessFlag successfulComponent failedComponent deployStatus
  let sc := successfulComponent.getD (.dict [])
  let sfdcRaw := pyStr ((((c.getD "sfdc_id").orElse (sc.getD "id")).orElse
    (sc.getD "componentId")).orElse (.str ""))
  { ctype := "custom_object", apiName := apiName, success := success,
    sfdcId := if sfdcRaw = "" then .none else .str sfdcRaw,
    error :=
      if success then Option.none
      else some (match failedComponent with
                 | some f =>
                     if f.truthy then metadataFailureToError f
                     else ⟨"metadata_deploy_failed",
                       "Destructive deploy ended with status " ++ deployStatus⟩
                 | Option.none =>
                     ⟨"metadata_deploy_failed",
                       "Destructive deploy ended with status " ++ deployStatus⟩) }

/-- The destructive object phase of `execute_rollback` (lines 1219-1283):
compile the destructive archive from the reversed deduplicated names,
deploy-and-poll, then reconcile each object (in reverse order, skipping
empty names); on a raise, a failure entry per object instead. -/
def rollbackObjectPhase (g : Gateway) (objectComponents : List PyVal) :
    List ComponentResult :=
  if objectComponents.isEmpty then []
  else
    let objectNamesForDeploy := rollbackObjectDeployNames objectComponents
    match g.metadataDeployAndPoll (.destructiveObjects (destructiveDeployNames objectNamesForDeploy)) with
    | .error e =>
        objectComponents.reverse.filterMap (fun c =>
          let apiName := getStrStripped c "api_name"
          if apiName = "" then Option.none
          else some { ctype := "custom_object", apiName := apiName, success := false,
                      sfdcId := c.getD "sfdc_id",
                      error := some (normalizeError (detailAsDict e)) })
    | .ok metadataResult =>
        let deployStatus := metadataStatus metadataResult
        let (successMap, failureMap) := metadataComponentMaps metadataResult
        objectComponents.reverse.filterMap (fun c =>
          let apiName := getStrStripped c "api_name"
          if apiName = "" then Option.none
          else some (rollbackObjectResult successMap failureMap deployStatus c apiName))

/-- The dict `execute_rollback` (and `execute_analytics_rollback`)
returns. -/
structure RollbackResult where
  status : String
  components : List ComponentResult
  rolledBackComponents : Nat
  failedComponents : Nat

/-- `execute_rollback` (deploy_service.py:1163-1292). -/
def executeRollback (deploymentResult : PyVal) (g : Gateway) : RollbackResult :=
  let successfulComponents := successfulComponentsOf deploymentResult
  let fieldLikeComponents := successfulComponents.filter isFieldLikeComponent
  let objectComponents := successfulComponents.filter isObjectComponent
  let objectNamesForDelete :=
    (objectComponents.map (fun c => getStrStripped c "api_name")).filter (fun n => n != "")
  let rollbackComponents :=
    rollbackFieldPhase g objectNamesForDelete fieldLikeComponents.reverse
      ++ rollbackObjectPhase g objectComponents
  let totalComponents := rollbackComponents.length
  let successfulCount := (rollbackComponents.filter (fun c => c.success)).length
  { status := resolveDeploymentStatus totalComponents successfulCount,
    components := rollbackComponents,
    rolledBackComponents := successfulCount,
    failedComponents := totalComponents - successfulCount }

/-! ## Record batcher (`src/app/services/push_service.py`) -/

/-- `SFDC_COMPOSITE_BATCH_SIZE`. -/
def sfdcCompositeBatchSize : Nat := 200

/-- `_chunk_records` with fuel (one unit per record) keeping the
recursion structural. -/
def chunkRecordsFuel (chunkSize : Nat) : Nat → List PyVal → List (List PyVal)
  | _, [] => []
  | 0, _ => []
  | Nat.succ fuel, records =>
      if chunkSize = 0 then []
      else records.take chunkSize :: chunkRecordsFuel chunkSize fuel (records.drop chunkSize)

/-- `_chunk_records`: `[records[i:i+n] for i in range(0, len(records), n)]`
(guarded against a zero chunk size, which the source's constant 200 never
takes). -/
def chunkRecords (records : List PyVal) (chunkSize : Nat) : List (List PyVal) :=
  chunkRecordsFuel chunkSize records.length records

/-- `_transform_record`: identity copy without a mapping, else a key remap
through `field_mapping.get(key, key)` (mapping values are strings in the
stored mappings; a non-string value would render through `str` as a dict
key, which no caller produces). -/
def transformRecord (record : PyVal) (fieldMapping : PyVal) : PyVal :=
  if ¬fieldMapping.truthy then record
  else
    match record with
    | .dict entries =>
        .dict (entries.foldl
          (fun m kv =>
            let transformedKey :=
              match fieldMapping.get? kv.1 with
              | some (.str s) => s
              | some v => pyStr v
              | Option.none => kv.1
            PyVal.mapInsert m transformedKey kv.2)
          [])
    | v => v

/-- `_build_batch_failure_result` (push_service.py:23-46): one synthetic
failure dict per record of the batch. -/
def buildBatchFailureResult (detail : PyVal) (batchSize : Nat) : List PyVal :=
  let statusCodeAndMessage :=
    match detail with
    | .dict entries =>
        let d : PyVal := .dict entries
        (pyStr (d.getOr "code" (.str "salesforce_batch_failed")),
         pyStr (d.getOr "message" (.str "Salesforce composite batch request failed")))
    | .none => ("salesforce_batch_failed", "Salesforce composite batch request failed")
    | v => ("salesforce_batch_failed", pyStr v)
  List.replicate batchSize (.dict
    [("id", .none), ("success", .bool false), ("created", .bool false),
     ("errors", .list [.dict [("statusCode", .str statusCodeAndMessage.1),
                              ("message", .str statusCodeAndMessage.2),
                              ("fields", .list [])]])])

/-- The record transformation loop of `push_records` (lines 57-61):
remap each record and attach `{"type": object_type}` attributes. -/
def pushTransformedRecords (objectType : String) (records : List PyVal)
    (fieldMapping : PyVal) : List PyVal :=
  records.map (fun record =>
    match transformRecord record fieldMapping with
    | .dict entries =>
        PyVal.dict (PyVal.mapInsert entries "attributes" (.dict [("type", .str objectType)]))
    | v => v)

/-- The dict `push_records` returns. -/
structure PushResult where
  status : String
  recordsTotal : Nat
  recordsSucceeded : Nat
  recordsFailed : Nat
  results : List PyVal
  errors : List PyVal

/-- `result.get("success") is True` under the dict guard. -/
def resultIsSuccess (r : PyVal) : Bool :=
  match r.get? "success" with
  | some (.bool true) => true
  | _ => false

/-- `result.get("success") is False` under the dict guard. -/
def resultIsFailure (r : PyVal) : Bool :=
  match r.get? "success" with
  | some (.bool false) => true
  | _ => false

/-- `push_records` (push_service.py:49-96).  `compositeUpsert` is the
gateway call for one batch (the connection, object type and external-id
field are fixed across the batches of one push); `.error` carries the
HTTPException detail the batch handler converts into synthetic failures. -/
def pushRecords (objectType : String) (records : List PyVal) (fieldMapping : PyVal)
    (compositeUpsert : List PyVal → Except PyVal (List PyVal)) : PushResult :=
  let transformedRecords := pushTransformedRecords objectType records fieldMapping
  let batches := chunkRecords transformedRecords sfdcCompositeBatchSize
  let allResults := (batches.map (fun batch =>
    match compositeUpsert batch with
    | .ok batchResults => batchResults
    | .error e => buildBatchFailureResult e batch.length)).flatten
  let recordsSucceeded := (allResults.filter resultIsSuccess).length
  let recordsFailed := allResults.length - recordsSucceeded
  let status :=
    if recordsSucceeded = allResults.length then "succeeded"
    else if recordsFailed = allResults.length then "failed"
    else "partial"
  { status := status, recordsTotal := records.length,
    recordsSucceeded := recordsSucceeded, recordsFailed := recordsFailed,
    results := allResults, errors := allResults.filter resultIsFailure }

/-! ## Specification-side definitions and concrete inputs for the claims -/

/-- C1: a minimal valid plan with one custom object, driving
`execute_deployment` to the `metadata_deploy_and_poll` call site. -/
def c1FailingPlan : PyVal :=
  .dict [("custom_objects", .list [.dict [("api_name", .str "Foo__c"), ("label", .str "Foo")]])]

/-- C3: a metadata deploy payload carrying one component failure and one
component success, for the witness. -/
def c3MetadataResult : PyVal :=
  .dict [("deployResult", .dict
    [("status", .str "Failed"),
     ("details", .dict
       [("componentSuccesses", .list
          [.dict [("fullName", .str "Ok__c"), ("id", .str "id1")]]),
        ("componentFailures", .list
          [.dict [("fullName", .str "Bad__c"), ("problemType", .str "Error"),
                  ("problem", .str "boom")]])])])]

/-- C4: the spec's example plan — one custom object `Foo__c` with one
`Text` field `Bar__c`. -/
def c4Plan : PyVal :=
  .dict [("custom_objects", .list [.dict
    [("api_name", .str "Foo__c"), ("label", .str "Foo"),
     ("fields", .list [.dict [("api_name", .str "Bar__c"), ("label", .str "Bar"),
                              ("type", .str "Text")]])]])]

/-- C4: a snapshot in which `Foo__c` does not exist. -/
def c4Snapshot : PyVal := .dict [("objects", .dict [])]

/-- C8: the folder-not-found error the validator emits for `reports[i]`
referencing folder `f`. -/
def reportFolderNotFoundErr (i : Nat) (f : String) : VErr :=
  ⟨reportPathOf i ++ ".folder",
   "Report folder '" ++ f
     ++ "' not found in plan report_folders and not marked as pre_existing"⟩

/-- C8: how many reports reference folder `f` without a valid
`pre_existing: true` flag — the reports whose folder check `f` resolves. -/
def reportsReferencingFolder (f : String) (reports : List PyVal) : Nat :=
  reports.countP (fun r =>
    r.isDict && (requiredStringValue r "folder" == f) && !(preExistingValue r))

/-- C8 counterexample: one report spec referencing folder `"F"`. -/
def c8Report (n : String) : PyVal :=
  .dict [("api_name", .str n), ("folder", .str "F"), ("name", .str ("Report " ++ n)),
         ("reportType", .str "Opportunity")]

/-- C8 counterexample: two reports sharing the missing folder. -/
def c8PlanTwoReports : PyVal :=
  .dict [("reports", .list [c8Report "R1", c8Report "R2"])]

/-- C8 counterexample: the same plan with the matching folder added. -/
def c8PlanWithFolder : PyVal :=
  .dict [("report_folders", .list [.dict [("api_name", .str "F"), ("name", .str "F Folder")]]),
         ("reports", .list [c8Report "R1", c8Report "R2"])]

/-- C9 spec side: the default the claim assigns to the value emitted for
entry `e` at position `i` — an explicit `default` key on the entry wins,
otherwise `true` exactly on the first value. -/
def picklistDefaultSpec (e : PyVal) (i : Nat) : Bool :=
  match e.get? "default" with
  | some v => v.truthy
  | Option.none => i == 0

/-- C9 counterexample: a non-string non-dict first entry followed by a
bare string, with no entry overriding its own default. -/
def c9Values : List PyVal := [.int 1, .str "A"]

/-- C10: the custom-object component names `execute_deployment` plans
(the `custom_object` entries of `planned_custom_components`, in order). -/
def deployPlannedObjectNames (objects : List PyVal) : List String :=
  (((planMetadataObjects (collectMetadataObjects objects).2).2.1).filter
    (fun p => p.1 = "custom_object")).map (fun p => p.2)

/-- C10 counterexample: two plan entries sharing the api name `Foo__c`. -/
def c10DupObjects : List PyVal :=
  [.dict [("api_name", .str "Foo__c"), ("label", .str "A")],
   .dict [("api_name", .str "Foo__c"), ("label", .str "B")]]

/-- C10 counterexample: the plan wrapping those entries. -/
def c10DupPlan : PyVal := .dict [("custom_objects", .list c10DupObjects)]

/-- C9 spec side: a bare string or a structured value object — the two
entry shapes the spec says picklist normalization accepts. -/
def isStrOrDict (v : PyVal) : Bool :=
  match v with
  | .str _ => true
  | .dict _ => true
  | _ => false

/-- C8: a plan assembled from its four analytics sections. -/
def mkAnalyticsPlan (rf dbf rp db : PyVal) : PyVal :=
  .dict [("report_folders", rf), ("dashboard_folders", dbf),
         ("reports", rp), ("dashboards", db)]

/-- C8: a well-formed report-folder entry carrying api name `f`. -/
def folderSpecFor (f : String) : PyVal :=
  .dict [("api_name", .str f), ("name", .str "Folder")]

/-! ## Theorems -/

/-- C1: `execute_deployment` reaches `salesforce.metadata_deploy_and_poll`
with a `provider_config_key` keyword (deploy_service.py:870-874) that the
function's signature (salesforce.py:503-508) does not declare, and
`push_records` does the same at `salesforce.composite_upsert`
(push_service.py:66-72 against salesforce.py:188-193): neither keyword
list binds, so Python raises `TypeError` instead of returning a result or
raising `HTTPException`.  The accompanying plan passes validation, showing
that a well-formed request drives `execute_deployment` to the broken call. -/
theorem gateway_calls_pass_undeclared_keyword :
    kwargsAccepted metadataDeployAndPollParams executeDeploymentDeployCallKwargs = false
    ∧ kwargsAccepted compositeUpsertParams pushRecordsUpsertCallKwargs = false
    ∧ validateCustomObjectPlan c1FailingPlan = [] :=
  ⟨rfl, rfl, rfl⟩

/-- C2: the aggregation every orchestrator result ends with —
`_resolve_deployment_status(len(components), sum(successes))` — yields
`failed` when the outcome list is empty or no component succeeded,
`succeeded` when every component succeeded and at least one exists, and
`partial` otherwise. -/
theorem deployment_status_aggregation_rule (components : List ComponentResult) :
    resolveDeploymentStatus components.length
        ((components.filter (fun c => c.success)).length) =
      (if components.isEmpty ∨ (components.filter (fun c => c.success)).length = 0 then
         "failed"
       else if components.all (fun c => c.success) then "succeeded"
       else "partial") := by
  rcases components with _ | ⟨c, cs⟩
  · simp [resolveDeploymentStatus]
  · set l := c :: cs with hl
    have hlen : l.length ≠ 0 := by simp [hl]
    have hempty : l.isEmpty = false := by simp [hl]
    by_cases hk : (l.filter (fun c => c.success)).length = 0
    · simp [resolveDeploymentStatus, hk, hempty]
    · have hle : (l.filter (fun c => c.success)).length ≤ l.length :=
        List.length_filter_le _ l
      by_cases hall : l.all (fun c => c.success)
      · have : (l.filter (fun c => c.success)).length = l.length := by
          rw [List.filter_eq_self.mpr (List.all_eq_true.mp hall)]
        simp [resolveDeploymentStatus, hk, hempty, hall, this, hlen]
      · have hne : (l.filter (fun c => c.success)).length ≠ l.length := by
          intro h
          exact hall (List.all_eq_true.mpr
            (List.filter_eq_self.mp ((List.filter_sublist l).eq_of_length h)))
        simp [resolveDeploymentStatus, hk, hempty, hall, hne, hlen]

/-- C4 counterexample: on the spec's example — plan with `Foo__c` carrying
`Bar__c: Text`, snapshot without `Foo__c` — `check_conflicts` does not
return two findings: field comparisons are skipped entirely when the
object does not exist (`continue` at conflict_checker.py:124), so only
the object-level green finding is produced. -/
theorem conflict_example_not_two_findings :
    ¬ ((checkConflicts c4Plan c4Snapshot).findings.length = 2) := by
  intro h
  have h1 : (checkConflicts c4Plan c4Snapshot).findings.length = 1 := rfl
  omega

/-- C4 (amended): for the spec's example plan against a snapshot without
`Foo__c`, `check_conflicts` returns exactly one green finding — that the
object does not exist — and overall severity green; the field-level
finding is not produced because fields are only compared when the object
already exists in the snapshot. -/
theorem conflict_example_single_green_finding :
    checkConflicts c4Plan c4Snapshot =
      { findings := [⟨"green", "object_name", "Foo__c does not exist - safe to create"⟩],
        overallSeverity := "green", greenCount := 1, yellowCount := 0, redCount := 0 } :=
  rfl

/-- C8 counterexample: with two reports both referencing the missing
folder `F`, adding the matching folder to the plan removes both folder
errors at once, so the error count drops by two, not by exactly one. -/
theorem analytics_folder_delta_not_one :
    ¬ ((validateAnalyticsPlan c8PlanTwoReports).length
        = (validateAnalyticsPlan c8PlanWithFolder).length + 1) := by
  intro h
  have h2 : (validateAnalyticsPlan c8PlanTwoReports).length = 2 := rfl
  have h0 : (validateAnalyticsPlan c8PlanWithFolder).length = 0 := rfl
  omega

/-- C9 counterexample: `_build_picklist_values` silently skips the
non-string non-dict first entry while `enumerate` advances, so for
`[1, "A"]` — where no entry overrides its own default — the emitted list
is a single value whose `default` is `false`: `default=true` appears on
no value at all, not on the first. -/
theorem picklist_default_skipped_entry :
    (buildPicklistValues c9Values).length = 1
    ∧ (buildPicklistValues c9Values).map (fun v => v.getD "default") = [.bool false] :=
  ⟨rfl, rfl⟩

/-- C10 counterexample: a plan with two custom objects sharing the api
name `Foo__c` passes `validate_custom_object_plan` (no duplicate check),
yet the compiled manifest lists `Foo__c` twice under `CustomObject` —
the member lists are not deduplicated for custom objects. -/
theorem manifest_duplicate_member :
    validateCustomObjectPlan c10DupPlan = []
    ∧ ((customObjectManifest c10DupObjects).map (fun t => t.members)).flatten.count "Foo__c"
        = 2 :=
  ⟨rfl, by decide⟩

/-- Lookup after a Python-dict insertion: the inserted key wins, all
others are unchanged. -/
theorem lookup_mapInsert (m : List (String × PyVal)) (k : String) (v : PyVal)
    (k' : String) :
    (PyVal.mapInsert m k v).lookup k' = if k' = k then some v else m.lookup k' := by
  induction m with
  | nil =>
      by_cases h : k' = k
      · simp [PyVal.mapInsert, List.lookup, h]
      · have hb : (k' == k) = false := beq_false_of_ne h
        simp [PyVal.mapInsert, List.lookup, hb, h]
  | cons p rest ih =>
      obtain ⟨pk, pv⟩ := p
      by_cases hp : pk = k
      · have heq : PyVal.mapInsert ((pk, pv) :: rest) k v = PyVal.mapInsert rest k v := by
          simp [PyVal.mapInsert, List.filter_cons, hp]
        rw [heq, ih]
        by_cases h : k' = k
        · simp [h]
        · have hb : (k' == pk) = false := beq_false_of_ne (fun hc => h (hc.trans hp))
          simp [h, List.lookup, hb]
      · have heq : PyVal.mapInsert ((pk, pv) :: rest) k v
            = (pk, pv) :: PyVal.mapInsert rest k v := by
          simp [PyVal.mapInsert, List.filter_cons, hp]
        rw [heq]
        by_cases hk' : k' = pk
        · have hkk : ¬ (k' = k) := fun hc => hp (hk'.symm.trans hc)
          have hb : (k' == pk) = true := beq_iff_eq.mpr hk'
          simp [List.lookup, hb, hkk]
        · have hb : (k' == pk) = false := beq_false_of_ne hk'
          simp [List.lookup, hb, ih]

/-- A component stored in a success/failure map has a non-empty stripped
`fullName`, so it is a non-empty dict and therefore truthy. -/
theorem truthy_of_fullName_nonempty (comp : PyVal)
    (h : getStrStripped comp "fullName" ≠ "") : comp.truthy = true := by
  cases comp with
  | dict xs =>
      cases xs with
      | nil => exact absurd rfl h
      | cons p rest => rfl
  | none => exact absurd rfl h
  | bool b => exact absurd rfl h
  | int n => exact absurd rfl h
  | str s => exact absurd rfl h
  | list xs => exact absurd rfl h

/-- Every value stored by the `_metadata_component_maps` fold is truthy. -/
theorem lookup_foldl_insert_truthy (comps : List PyVal) :
    ∀ (m : List (String × PyVal)),
      (∀ k v, m.lookup k = some v → v.truthy = true) →
      ∀ k v, (comps.foldl insertComponentByFullName m).lookup k = some v →
        v.truthy = true := by
  induction comps with
  | nil => exact fun m hm k v h => hm k v h
  | cons c rest ih =>
      intro m hm k v h
      refine ih _ ?_ k v h
      intro k' v' h'
      unfold insertComponentByFullName at h'
      by_cases hname : getStrStripped c "fullName" != ""
      · rw [if_pos hname, lookup_mapInsert] at h'
        by_cases hk : k' = getStrStripped c "fullName"
        · rw [if_pos hk] at h'
          cases h'
          exact truthy_of_fullName_nonempty c (by simpa using hname)
        · rw [if_neg hk] at h'
          exact hm k' v' h'
      · rw [if_neg hname] at h'
        exact hm k' v' h'

/-- Both maps `_metadata_component_maps` builds hold only truthy values. -/
theorem metadataComponentMaps_truthy (metadataResult : PyVal) :
    (∀ k v, (metadataComponentMaps metadataResult).1.lookup k = some v → v.truthy = true)
    ∧ (∀ k v, (metadataComponentMaps metadataResult).2.lookup k = some v →
        v.truthy = true) := by
  have hnil : ∀ k v, (([] : List (String × PyVal)).lookup k = some v) → v.truthy = true := by
    intro k v h
    simp [List.lookup] at h
  constructor <;> intro k v h <;> unfold metadataComponentMaps at h
  · split at h
    · split at h
      · exact lookup_foldl_insert_truthy _ [] hnil k v h
      · exact hnil k v h
    · exact hnil k v h
  · split at h
    · split at h
      · exact lookup_foldl_insert_truthy _ [] hnil k v h
      · exact hnil k v h
    · exact hnil k v h

/-- C3: per-component reconciliation of a bulk deploy result is the
three-way resolution — a planned component found in the failure map is
recorded as failed with that failure's error; otherwise one found in the
success map is recorded successful; otherwise it is successful exactly
when the overall remote status is `Succeeded`. -/
theorem bulk_reconciliation_three_way (metadataResult : PyVal)
    (genericMessage componentType apiName : String) :
    (∀ f, (metadataComponentMaps metadataResult).2.lookup apiName = some f →
        (reconcileComponent (metadataComponentMaps metadataResult).1
            (metadataComponentMaps metadataResult).2 (metadataStatus metadataResult)
            genericMessage componentType apiName).success = false
        ∧ (reconcileComponent (metadataComponentMaps metadataResult).1
            (metadataComponentMaps metadataResult).2 (metadataStatus metadataResult)
            genericMessage componentType apiName).error
          = some (metadataFailureToError f))
    ∧ ((metadataComponentMaps metadataResult).2.lookup apiName = Option.none →
        ∀ s, (metadataComponentMaps metadataResult).1.lookup apiName = some s →
        (reconcileComponent (metadataComponentMaps metadataResult).1
            (metadataComponentMaps metadataResult).2 (metadataStatus metadataResult)
            genericMessage componentType apiName).success = true
        ∧ (reconcileComponent (metadataComponentMaps metadataResult).1
            (metadataComponentMaps metadataResult).2 (metadataStatus metadataResult)
            genericMessage componentType apiName).error = Option.none)
    ∧ ((metadataComponentMaps metadataResult).2.lookup apiName = Option.none →
        (metadataComponentMaps metadataResult).1.lookup apiName = Option.none →
        ((reconcileComponent (metadataComponentMaps metadataResult).1
            (metadataComponentMaps metadataResult).2 (metadataStatus metadataResult)
            genericMessage componentType apiName).success = true
          ↔ metadataStatus metadataResult = "Succeeded")) := by
  obtain ⟨hsm, hfm⟩ := metadataComponentMaps_truthy metadataResult
  refine ⟨?_, ?_, ?_⟩
  · intro f hf
    have hft : f.truthy = true := hfm apiName f hf
    constructor
    · simp [reconcileComponent, reconcileSuccessFlag, lookupTruthy, hf, hft]
    · simp [reconcileComponent, reconcileSuccessFlag, lookupTruthy, hf, hft]
  · intro hf s hs
    have hst : s.truthy = true := hsm apiName s hs
    constructor
    · simp [reconcileComponent, reconcileSuccessFlag, lookupTruthy, hf, hs, hst]
    · simp [reconcileComponent, reconcileSuccessFlag, lookupTruthy, hf, hs, hst]
  · intro hf hs
    by_cases hstat : metadataStatus metadataResult = "Succeeded"
    · simp [reconcileComponent, reconcileSuccessFlag, lookupTruthy, hf, hs, hstat]
    · simp [reconcileComponent, reconcileSuccessFlag, lookupTruthy, hf, hs, hstat]

/-- C3 witness: the rule applied to a concrete deploy payload whose
failure map names `Bad__c`. -/
theorem bulk_reconciliation_three_way_witness :
    (reconcileComponent (metadataComponentMaps c3MetadataResult).1
        (metadataComponentMaps c3MetadataResult).2 (metadataStatus c3MetadataResult)
        "Metadata deploy ended with status " "custom_object" "Bad__c").success = false
    ∧ (reconcileComponent (metadataComponentMaps c3MetadataResult).1
        (metadataComponentMaps c3MetadataResult).2 (metadataStatus c3MetadataResult)
        "Metadata deploy ended with status " "custom_object" "Bad__c").error
      = some (metadataFailureToError (.dict [("fullName", .str "Bad__c"),
          ("problemType", .str "Error"), ("problem", .str "boom")])) :=
  (bulk_reconciliation_three_way c3MetadataResult "Metadata deploy ended with status "
    "custom_object" "Bad__c").1
    (.dict [("fullName", .str "Bad__c"), ("problemType", .str "Error"),
            ("problem", .str "boom")]) rfl

/-- Concatenating the chunks of `_chunk_records` restores the input list. -/
theorem chunkRecordsFuel_flatten (n : Nat) (hn : n ≠ 0) :
    ∀ (fuel : Nat) (l : List PyVal), l.length ≤ fuel →
      (chunkRecordsFuel n fuel l).flatten = l := by
  intro fuel
  induction fuel with
  | zero =>
      intro l hl
      cases l with
      | nil => rfl
      | cons a t => simp at hl
  | succ f ih =>
      intro l hl
      cases l with
      | nil => rfl
      | cons a t =>
          have hd : ((a :: t).drop n).length ≤ f := by
            rw [List.length_drop]
            have hn1 : 1 ≤ n := Nat.one_le_iff_ne_zero.mpr hn
            simp only [List.length_cons] at hl ⊢
            omega
          rw [show chunkRecordsFuel n (f + 1) (a :: t)
              = (a :: t).take n :: chunkRecordsFuel n f ((a :: t).drop n) from by
            simp [chunkRecordsFuel, hn]]
          rw [List.flatten_cons, ih _ hd, List.take_append_drop]

/-- Mapping a length-preserving batch handler over chunks and flattening
preserves the total length. -/
theorem flatten_map_length_eq (g : List PyVal → List PyVal) :
    ∀ (batches : List (List PyVal)),
      (∀ b, b ∈ batches → (g b).length = b.length) →
      ((batches.map g).flatten).length = batches.flatten.length := by
  intro batches
  induction batches with
  | nil => intro _; rfl
  | cons b bs ih =>
      intro h
      simp only [List.map_cons, List.flatten_cons, List.length_append]
      rw [h b (List.mem_cons_self b bs), ih (fun x hx => h x (List.mem_cons_of_mem b hx))]

/-- Every synthetic entry of `_build_batch_failure_result` reads as a
failed, non-successful record result. -/
theorem buildBatchFailureResult_entries (detail : PyVal) (batchSize : Nat)
    (r : PyVal) (hr : r ∈ buildBatchFailureResult detail batchSize) :
    resultIsFailure r = true ∧ resultIsSuccess r = false := by
  simp only [buildBatchFailureResult] at hr
  have := List.eq_of_mem_replicate hr
  subst this
  exact ⟨rfl, rfl⟩

/-- C6: when every chunk-level upsert call of `push_records` raises, the
push reports `failed` with one synthetic failure per input record; and
whenever each successful call returns one result per record of its chunk,
the result list matches the input length across chunk boundaries. -/
theorem push_failure_accounting (objectType : String) (records : List PyVal)
    (fieldMapping : PyVal) (upsert : List PyVal → Except PyVal (List PyVal)) :
    ((∀ batch, ∃ e, upsert batch = Except.error e) → records ≠ [] →
        (pushRecords objectType records fieldMapping upsert).status = "failed"
        ∧ (pushRecords objectType records fieldMapping upsert).results.length
            = records.length
        ∧ (pushRecords objectType records fieldMapping upsert).results.all
              resultIsFailure = true)
    ∧ ((∀ batch res, upsert batch = Except.ok res → res.length = batch.length) →
        (pushRecords objectType records fieldMapping upsert).results.length
          = records.length) := by
  have hflat : (chunkRecords (pushTransformedRecords objectType records fieldMapping)
        sfdcCompositeBatchSize).flatten
      = pushTransformedRecords objectType records fieldMapping :=
    chunkRecordsFuel_flatten sfdcCompositeBatchSize (by decide) _ _ (le_refl _)
  have htrlen : (pushTransformedRecords objectType records fieldMapping).length
      = records.length := by
    simp [pushTransformedRecords]
  have hresults : (pushRecords objectType records fieldMapping upsert).results
      = ((chunkRecords (pushTransformedRecords objectType records fieldMapping)
            sfdcCompositeBatchSize).map (fun batch =>
          match upsert batch with
          | .ok batchResults => batchResults
          | .error e => buildBatchFailureResult e batch.length)).flatten := rfl
  constructor
  · intro hfail hne
    have hgb : ∀ b, b ∈ chunkRecords (pushTransformedRecords objectType records fieldMapping)
          sfdcCompositeBatchSize →
        ((fun batch =>
          match upsert batch with
          | .ok batchResults => batchResults
          | .error e => buildBatchFailureResult e batch.length) b).length = b.length := by
      intro b _
      obtain ⟨e, he⟩ := hfail b
      simp only [he, buildBatchFailureResult, List.length_replicate]
    have hlen : (pushRecords objectType records fieldMapping upsert).results.length
        = records.length := by
      rw [hresults, flatten_map_length_eq _ _ hgb, hflat, htrlen]
    have hallfail : ∀ r, r ∈ (pushRecords objectType records fieldMapping upsert).results →
        resultIsFailure r = true ∧ resultIsSuccess r = false := by
      intro r hr
      rw [hresults, List.mem_flatten] at hr
      obtain ⟨s, hs, hrs⟩ := hr
      rw [List.mem_map] at hs
      obtain ⟨b, _, rfl⟩ := hs
      obtain ⟨e, he⟩ := hfail b
      simp only [he] at hrs
      exact buildBatchFailureResult_entries e b.length r hrs
    have hzero : ((pushRecords objectType records fieldMapping upsert).results.filter
        resultIsSuccess).length = 0 := by
      rw [List.length_eq_zero]
      rw [List.filter_eq_nil_iff]
      intro r hr
      rw [(hallfail r hr).2]
      exact Bool.false_ne_true
    have hlenne : (pushRecords objectType records fieldMapping upsert).results.length ≠ 0 := by
      rw [hlen]
      intro h0
      exact hne (List.length_eq_zero.mp h0)
    refine ⟨?_, hlen, ?_⟩
    · have hstat : (pushRecords objectType records fieldMapping upsert).status
          = (if ((pushRecords objectType records fieldMapping upsert).results.filter
                  resultIsSuccess).length
                = (pushRecords objectType records fieldMapping upsert).results.length
             then "succeeded"
             else if (pushRecords objectType records fieldMapping upsert).results.length
                    - ((pushRecords objectType records fieldMapping upsert).results.filter
                        resultIsSuccess).length
                  = (pushRecords objectType records fieldMapping upsert).results.length
             then "failed" else "partial") := rfl
      rw [hstat, hzero]
      rw [if_neg (fun h => hlenne h.symm), if_pos (Nat.sub_zero _)]
    · rw [List.all_eq_true]
      intro r hr
      exact (hallfail r hr).1
  · intro hok
    have hgb : ∀ b, b ∈ chunkRecords (pushTransformedRecords objectType records fieldMapping)
          sfdcCompositeBatchSize →
        ((fun batch =>
          match upsert batch with
          | .ok batchResults => batchResults
          | .error e => buildBatchFailureResult e batch.length) b).length = b.length := by
      intro b _
      cases hub : upsert b with
      | ok res => simp only [hub, hok b res hub]
      | error e => simp only [hub, buildBatchFailureResult, List.length_replicate]
    rw [hresults, flatten_map_length_eq _ _ hgb, hflat, htrlen]

/-- C6 witness: two records against an upsert that always raises. -/
theorem push_failure_accounting_witness :
    (pushRecords "Account" [.dict [("Name", .str "A")], .dict [("Name", .str "B")]]
        .none (fun _ => Except.error .none)).status = "failed"
    ∧ (pushRecords "Account" [.dict [("Name", .str "A")], .dict [("Name", .str "B")]]
        .none (fun _ => Except.error .none)).results.length = 2
    ∧ (pushRecords "Account" [.dict [("Name", .str "A")], .dict [("Name", .str "B")]]
        .none (fun _ => Except.error .none)).results.all resultIsFailure = true := by
  have h := (push_failure_accounting "Account"
      [.dict [("Name", .str "A")], .dict [("Name", .str "B")]]
      .none (fun _ => Except.error .none)).1
    (fun batch => ⟨.none, rfl⟩) (by simp)
  exact ⟨h.1, h.2.1.trans rfl, h.2.2⟩

/-- The per-component verification step never consults the auto-map
outcome. -/
theorem deployVerifyOne_autoMap_canon (mdp : DeployZip → Except PyVal PyVal)
    (tq : String → Except PyVal (List PyVal))
    (tccf : String → String → PyVal → Except PyVal PyVal)
    (td : String → String → Except PyVal PyVal) (am : Except PyVal Unit)
    (sm fm : List (String × PyVal)) (ds : String)
    (specs : List (String × PlannedFieldSpec)) (ct an : String) :
    deployVerifyOne ⟨mdp, tq, tccf, td, am⟩ sm fm ds specs ct an
      = deployVerifyOne ⟨mdp, tq, tccf, td, Except.ok ()⟩ sm fm ds specs ct an := rfl

/-- The reconciliation-and-verification loop never consults the auto-map
outcome. -/
theorem deployVerifyLoop_autoMap_canon (mdp : DeployZip → Except PyVal PyVal)
    (tq : String → Except PyVal (List PyVal))
    (tccf : String → String → PyVal → Except PyVal PyVal)
    (td : String → String → Except PyVal PyVal) (am : Except PyVal Unit)
    (sm fm : List (String × PyVal)) (ds : String)
    (specs : List (String × PlannedFieldSpec)) :
    ∀ planned, deployVerifyLoop ⟨mdp, tq, tccf, td, am⟩ sm fm ds specs planned
      = deployVerifyLoop ⟨mdp, tq, tccf, td, Except.ok ()⟩ sm fm ds specs planned := by
  intro planned
  induction planned with
  | nil => rfl
  | cons p rest ih =>
      obtain ⟨ct, an⟩ := p
      simp only [deployVerifyLoop, deployVerifyOne_autoMap_canon, ih]

/-- The bulk metadata phase is oblivious to which way the advisory
auto-mapping `try` went. -/
theorem deployMetadataPhase_autoMap_canon (mdp : DeployZip → Except PyVal PyVal)
    (tq : String → Except PyVal (List PyVal))
    (tccf : String → String → PyVal → Except PyVal PyVal)
    (td : String → String → Except PyVal PyVal) (am : Except PyVal Unit)
    (objs : List PyVal) :
    deployMetadataPhase ⟨mdp, tq, tccf, td, am⟩ objs
      = deployMetadataPhase ⟨mdp, tq, tccf, td, Except.ok ()⟩ objs := by
  unfold deployMetadataPhase
  simp only [deployVerifyLoop_autoMap_canon]
  cases am with
  | ok u => rfl
  | error e => rfl

/-- The standard-object inner field loop never consults the auto-map
outcome. -/
theorem stdFieldsLoop_autoMap_canon (mdp : DeployZip → Except PyVal PyVal)
    (tq : String → Except PyVal (List PyVal))
    (tccf : String → String → PyVal → Except PyVal PyVal)
    (td : String → String → Except PyVal PyVal) (am : Except PyVal Unit)
    (objectName : String) :
    ∀ fields, stdFieldsLoop ⟨mdp, tq, tccf, td, am⟩ objectName fields
      = stdFieldsLoop ⟨mdp, tq, tccf, td, Except.ok ()⟩ objectName fields := by
  intro fields
  induction fields with
  | nil => rfl
  | cons field rest ih => simp only [stdFieldsLoop, ih]

/-- The standard-object entry loop never consults the auto-map outcome. -/
theorem stdEntriesLoop_autoMap_canon (mdp : DeployZip → Except PyVal PyVal)
    (tq : String → Except PyVal (List PyVal))
    (tccf : String → String → PyVal → Except PyVal PyVal)
    (td : String → String → Except PyVal PyVal) (am : Except PyVal Unit) :
    ∀ entries, stdEntriesLoop ⟨mdp, tq, tccf, td, am⟩ entries
      = stdEntriesLoop ⟨mdp, tq, tccf, td, Except.ok ()⟩ entries := by
  intro entries
  induction entries with
  | nil => rfl
  | cons entry rest ih => simp only [stdEntriesLoop, stdFieldsLoop_autoMap_canon, ih]

/-- C7: the advisory auto-mapping side effect never alters the deployment
outcome — whatever the field-mapping upsert step does (raise or succeed),
`execute_deployment` returns exactly the result it would return had the
upsert succeeded. -/
theorem auto_map_failure_absorbed (plan : PyVal) (mdp : DeployZip → Except PyVal PyVal)
    (tq : String → Except PyVal (List PyVal))
    (tccf : String → String → PyVal → Except PyVal PyVal)
    (td : String → String → Except PyVal PyVal) (am : Except PyVal Unit) :
    executeDeployment plan ⟨mdp, tq, tccf, td, am⟩
      = executeDeployment plan ⟨mdp, tq, tccf, td, Except.ok ()⟩ := by
  unfold executeDeployment
  simp only [deployMetadataPhase_autoMap_canon, stdEntriesLoop_autoMap_canon]

/-- The reversed-field loop of `execute_rollback` is the elementwise
skip-or-delete choice over its input order. -/
theorem rollbackFieldPhase_eq_map (g : Gateway) (names : List String) :
    ∀ cs, rollbackFieldPhase g names cs
      = cs.map (fun c =>
          if parentObjectOf (getStrStripped c "api_name") != ""
              && names.contains (parentObjectOf (getStrStripped c "api_name"))
          then rollbackSkipEntry c (getStrStripped c "api_name")
          else rollbackComponent g c) := by
  intro cs
  induction cs with
  | nil => rfl
  | cons c rest ih =>
      simp only [rollbackFieldPhase, List.map_cons, ih]
      by_cases h : (parentObjectOf (getStrStripped c "api_name") != ""
          && names.contains (parentObjectOf (getStrStripped c "api_name"))) = true
      · simp only [if_pos h]
        rfl
      · simp only [if_neg h]
        rfl

/-- C5: `execute_rollback` acts only on the successful components of the
prior result: it maps the skip-or-delete choice over the field-like
components in reverse of their original order — a field whose parent
object is among the objects being destroyed becomes a successful skipped
entry — and only afterwards appends the destructive object phase, whose
deploy names are the deduplicated reverse of the original creation
order. -/
theorem rollback_structure (deploymentResult : PyVal) (g : Gateway) :
    (executeRollback deploymentResult g).components
      = ((successfulComponentsOf deploymentResult).filter isFieldLikeComponent).reverse.map
          (fun c =>
            if parentObjectOf (getStrStripped c "api_name") != ""
                && ((((successfulComponentsOf deploymentResult).filter isObjectComponent).map
                      (fun c => getStrStripped c "api_name")).filter
                    (fun n => n != "")).contains
                  (parentObjectOf (getStrStripped c "api_name"))
            then rollbackSkipEntry c (getStrStripped c "api_name")
            else rollbackComponent g c)
        ++ rollbackObjectPhase g
            ((successfulComponentsOf deploymentResult).filter isObjectComponent)
    ∧ (∀ c apiName, (rollbackSkipEntry c apiName).success = true
        ∧ (rollbackSkipEntry c apiName).skipped = true
        ∧ (rollbackSkipEntry c apiName).reason = some "Deleted with parent custom object")
    ∧ (∀ objectComponents : List PyVal,
        rollbackObjectDeployNames objectComponents
          = dedupKeepFirst ((objectComponents.reverse.map
              (fun c => getStrStripped c "api_name")).filter (fun n => n != ""))) := by
  refine ⟨?_, fun c a => ⟨rfl, rfl, rfl⟩, fun objs => rfl⟩
  have h1 : (executeRollback deploymentResult g).components
      = rollbackFieldPhase g
          ((((successfulComponentsOf deploymentResult).filter isObjectComponent).map
              (fun c => getStrStripped c "api_name")).filter (fun n => n != ""))
          ((successfulComponentsOf deploymentResult).filter isFieldLikeComponent).reverse
        ++ rollbackObjectPhase g
            ((successfulComponentsOf deploymentResult).filter isObjectComponent) := rfl
  rw [h1, rollbackFieldPhase_eq_map]

/-- The builder's per-entry defaults, indexed from an arbitrary start:
one emitted value per entry, default as the spec's rule at the entry's
enumerate position. -/
theorem appendPicklistValuesAux_defaults (values : List PyVal) :
    ∀ start, (appendPicklistValuesAux start values).map (fun v => v.default)
      = (values.enumFrom start).map (fun p => picklistDefaultSpec p.2 p.1) := by
  induction values with
  | nil => intro start; rfl
  | cons v rest ih =>
      intro start
      cases v with
      | str s =>
          simp only [appendPicklistValuesAux, List.enumFrom, List.map_cons,
            List.singleton_append, ih (start + 1)]
          rfl
      | dict entries =>
          simp only [appendPicklistValuesAux, List.enumFrom, List.map_cons,
            List.singleton_append, ih (start + 1)]
          rfl
      | none =>
          simp only [appendPicklistValuesAux, List.enumFrom, List.map_cons,
            List.singleton_append, ih (start + 1)]
          rfl
      | bool b =>
          simp only [appendPicklistValuesAux, List.enumFrom, List.map_cons,
            List.singleton_append, ih (start + 1)]
          rfl
      | int n =>
          simp only [appendPicklistValuesAux, List.enumFrom, List.map_cons,
            List.singleton_append, ih (start + 1)]
          rfl
      | list xs =>
          simp only [appendPicklistValuesAux, List.enumFrom, List.map_cons,
            List.singleton_append, ih (start + 1)]
          rfl

/-- The deploy-service normalizer's defaults under the str-or-dict entry
shapes, indexed from an arbitrary start. -/
theorem buildPicklistValuesAux_defaults (values : List PyVal) :
    ∀ start, values.all isStrOrDict = true →
      (buildPicklistValuesAux start values).map (fun v => (v.getD "default").truthy)
        = (values.enumFrom start).map (fun p => picklistDefaultSpec p.2 p.1) := by
  induction values with
  | nil => intro start _; rfl
  | cons v rest ih =>
      intro start hall
      rw [List.all_cons, Bool.and_eq_true] at hall
      obtain ⟨hv, hrest⟩ := hall
      cases v with
      | str s =>
          simp only [buildPicklistValuesAux, List.enumFrom, List.map_cons,
            List.singleton_append, ih (start + 1) hrest]
          rfl
      | dict entries =>
          simp only [buildPicklistValuesAux, List.enumFrom, List.map_cons,
            List.singleton_append, ih (start + 1) hrest]
          rfl
      | none => exact absurd hv (by simp [isStrOrDict])
      | bool b => exact absurd hv (by simp [isStrOrDict])
      | int n => exact absurd hv (by simp [isStrOrDict])
      | list xs => exact absurd hv (by simp [isStrOrDict])

/-- Without explicit overrides, the spec's rule collapses to `true`
exactly at enumerate position zero. -/
theorem enumFrom_spec_no_override (values : List PyVal) :
    ∀ start, (∀ e ∈ values, e.get? "default" = Option.none) →
      (values.enumFrom start).map (fun p => picklistDefaultSpec p.2 p.1)
        = (values.enumFrom start).map (fun p => p.1 == 0) := by
  induction values with
  | nil => intro _ _; rfl
  | cons v rest ih =>
      intro start h
      have hv := h v (List.mem_cons_self v rest)
      simp only [List.enumFrom, List.map_cons]
      rw [ih (start + 1) (fun e he => h e (List.mem_cons_of_mem v he))]
      simp only [picklistDefaultSpec, hv]

/-- C9 (amended): both picklist normalizers accept bare strings and
structured value objects; the builder always emits one value per entry
with the default taken from the entry's explicit override or else from
its enumerate position — `true` exactly on the first value when nothing
overrides — and the deploy-service normalizer emits the same defaults as
long as every entry is a string or an object (a junk entry instead
advances the index without emitting, the counterexample's divergence). -/
theorem picklist_default_first_unless_overridden (values : List PyVal) :
    ((appendPicklistValues values).map (fun v => v.default)
        = (values.enumFrom 0).map (fun p => picklistDefaultSpec p.2 p.1))
    ∧ (values.all isStrOrDict = true →
        (buildPicklistValues values).map (fun v => (v.getD "default").truthy)
          = (values.enumFrom 0).map (fun p => picklistDefaultSpec p.2 p.1))
    ∧ ((∀ e ∈ values, e.get? "default" = Option.none) →
        (appendPicklistValues values).map (fun v => v.default)
          = (values.enumFrom 0).map (fun p => p.1 == 0)) :=
  ⟨appendPicklistValuesAux_defaults values 0,
   fun hall => buildPicklistValuesAux_defaults values 0 hall,
   fun hnone => (appendPicklistValuesAux_defaults values 0).trans
     (enumFrom_spec_no_override values 0 hnone)⟩

/-- C9 witness: a bare string followed by a structured value object. -/
theorem picklist_default_first_unless_overridden_witness :
    ((appendPicklistValues [.str "A", .dict [("value", .str "B")]]).map (fun v => v.default)
        = [true, false])
    ∧ ((buildPicklistValues [.str "A", .dict [("value", .str "B")]]).map
          (fun v => (v.getD "default").truthy) = [true, false]) := by
  have h := picklist_default_first_unless_overridden [.str "A", .dict [("value", .str "B")]]
  have hnone : ∀ e ∈ [PyVal.str "A", PyVal.dict [("value", PyVal.str "B")]],
      e.get? "default" = Option.none := by
    intro e he
    rcases List.mem_cons.mp he with rfl | he2
    · rfl
    · rcases List.mem_cons.mp he2 with rfl | he3
      · rfl
      · cases he3
  exact ⟨(h.2.2 hnone).trans (by decide), (h.2.1 (by decide)).trans (by decide)⟩

/-- Membership through `dict.fromkeys` deduplication is membership in the
input. -/
theorem dedupKeepFirstFuel_mem (a : String) :
    ∀ (fuel : Nat) (l : List String), l.length ≤ fuel →
      (a ∈ dedupKeepFirstFuel fuel l ↔ a ∈ l) := by
  intro fuel
  induction fuel with
  | zero =>
      intro l hl
      cases l with
      | nil => exact Iff.rfl
      | cons x t => simp at hl
  | succ f ih =>
      intro l hl
      cases l with
      | nil => exact Iff.rfl
      | cons x t =>
          have hlen : (t.filter (fun y => y ≠ x)).length ≤ f := by
            have := List.length_filter_le (fun y => y ≠ x) t
            simp only [List.length_cons] at hl
            omega
          rw [show dedupKeepFirstFuel (f + 1) (x :: t)
              = x :: dedupKeepFirstFuel f (t.filter (fun y => y ≠ x)) from rfl]
          constructor
          · intro h
            rcases List.mem_cons.mp h with rfl | h2
            · exact List.mem_cons_self _ _
            · exact List.mem_cons_of_mem x
                (List.mem_of_mem_filter ((ih _ hlen).mp h2))
          · intro h
            rcases List.mem_cons.mp h with rfl | h2
            · exact List.mem_cons_self _ _
            · by_cases hax : a = x
              · exact hax ▸ List.mem_cons_self _ _
              · exact List.mem_cons_of_mem x ((ih _ hlen).mpr
                  (List.mem_filter.mpr ⟨h2, by simpa using hax⟩))

/-- `dict.fromkeys` deduplication yields a duplicate-free list. -/
theorem dedupKeepFirstFuel_nodup :
    ∀ (fuel : Nat) (l : List String), l.length ≤ fuel →
      (dedupKeepFirstFuel fuel l).Nodup := by
  intro fuel
  induction fuel with
  | zero =>
      intro l hl
      cases l with
      | nil => exact List.nodup_nil
      | cons x t => simp at hl
  | succ f ih =>
      intro l hl
      cases l with
      | nil => exact List.nodup_nil
      | cons x t =>
          have hlen : (t.filter (fun y => y ≠ x)).length ≤ f := by
            have := List.length_filter_le (fun y => y ≠ x) t
            simp only [List.length_cons] at hl
            omega
          rw [show dedupKeepFirstFuel (f + 1) (x :: t)
              = x :: dedupKeepFirstFuel f (t.filter (fun y => y ≠ x)) from rfl]
          refine List.nodup_cons.mpr ⟨?_, ih _ hlen⟩
          intro hx
          have hmem := List.mem_filter.mp
            ((dedupKeepFirstFuel_mem x f _ hlen).mp hx)
          simp at hmem

/-- Membership in `list(dict.fromkeys(names))`. -/
theorem dedupKeepFirst_mem (a : String) (l : List String) :
    a ∈ dedupKeepFirst l ↔ a ∈ l :=
  dedupKeepFirstFuel_mem a l.length l (le_refl _)

/-- `list(dict.fromkeys(names))` is duplicate-free. -/
theorem dedupKeepFirst_nodup (l : List String) : (dedupKeepFirst l).Nodup :=
  dedupKeepFirstFuel_nodup l.length l (le_refl _)

/-- The first collection pass of `execute_deployment` hands the metadata
builder exactly the valid custom objects, in order. -/
theorem foldl_collectMetadataStep_snd :
    ∀ (objects : List PyVal) (acc : List ComponentResult × List PyVal),
      (objects.foldl collectMetadataStep acc).2 = acc.2 ++ validCustomObjects objects := by
  intro objects
  induction objects with
  | nil => intro acc; simp [validCustomObjects]
  | cons co rest ih =>
      intro acc
      rw [List.foldl_cons, ih]
      unfold collectMetadataStep validCustomObjects
      by_cases hd : co.isDict = true
      · by_cases hn : getStrStripped co "api_name" = ""
        · simp [hd, hn, List.filter_cons]
        · simp [hd, hn, List.filter_cons]
      · simp [hd, List.filter_cons]

/-- The planned components one `fields`/`relationships` loop contributes:
the given component type paired with each valid entry's qualified name. -/
theorem foldl_planFieldsStep_planned (o ct m : String) :
    ∀ (fields : List PyVal)
      (acc : List ComponentResult × List (String × String) × List (String × PlannedFieldSpec)),
      (fields.foldl (planFieldsStep o ct m) acc).2.1
        = acc.2.1 ++ (fields.filter
            (fun f => f.isDict && getStrStripped f "api_name" != "")).map
            (fun f => (ct, o ++ "." ++ getStrStripped f "api_name")) := by
  intro fields
  induction fields with
  | nil => intro acc; simp
  | cons field rest ih =>
      intro acc
      rw [List.foldl_cons, ih]
      unfold planFieldsStep
      by_cases hd : field.isDict = true
      · by_cases hn : getStrStripped field "api_name" = ""
        · simp [hd, hn, List.filter_cons]
        · simp [hd, hn, List.filter_cons]
      · simp [hd, List.filter_cons]

/-- A field-like planned block holds no `custom_object` entry. -/
theorem filter_co_of_map_ct (ct : String) (hct : ¬(ct = "custom_object"))
    (o : String) (l : List PyVal) :
    (l.map (fun f => (ct, o ++ "." ++ getStrStripped f "api_name"))).filter
        (fun p => p.1 = "custom_object") = [] := by
  rw [List.filter_eq_nil_iff]
  intro p hp
  rcases List.mem_map.mp hp with ⟨f, _, rfl⟩
  simpa using hct

/-- The `custom_object` entries of the planned component list are exactly
one per metadata custom object, in plan order. -/
theorem foldl_planMetadataStep_co :
    ∀ (objs : List PyVal)
      (acc : List ComponentResult × List (String × String) × List (String × PlannedFieldSpec)),
      ((objs.foldl planMetadataStep acc).2.1).filter (fun p => p.1 = "custom_object")
        = ((acc.2.1).filter (fun p => p.1 = "custom_object"))
          ++ objs.map (fun co => ("custom_object", getStrStripped co "api_name")) := by
  intro objs
  induction objs with
  | nil => intro acc; simp
  | cons co rest ih =>
      intro acc
      rw [List.foldl_cons, ih]
      have hstep : (planMetadataStep acc co).2.1 = acc.2.1 ++ (planMetadataObject co).2.1 := rfl
      rw [hstep, List.filter_append]
      have hobj : ((planMetadataObject co).2.1).filter (fun p => p.1 = "custom_object")
          = [("custom_object", getStrStripped co "api_name")] := by
        have h1 : (planMetadataObject co).2.1
            = ("custom_object", getStrStripped co "api_name")
              :: ((planFieldsOf (getStrStripped co "api_name") "custom_field" "Field entry for "
                    (match co.getD "fields" with | .list fs => fs | _ => [])).2.1
                ++ (planFieldsOf (getStrStripped co "api_name") "relationship"
                    "Relationship entry for "
                    (match co.getD "relationships" with | .list rs => rs | _ => [])).2.1) := rfl
        rw [h1, List.filter_cons]
        unfold planFieldsOf
        rw [List.filter_append, foldl_planFieldsStep_planned, foldl_planFieldsStep_planned]
        simp only [List.nil_append,
          filter_co_of_map_ct "custom_field" (by decide) _ _,
          filter_co_of_map_ct "relationship" (by decide) _ _]
        simp
      rw [hobj]
      simp [List.append_assoc]

/-- On an entry that survives the validity filter, the two api-name
renderings — with and without the `or ""` guard — agree. -/
theorem getStrStripped_of_ne (d : PyVal) (k : String)
    (h : getStrStripped d k ≠ "") :
    getStrStripped d k = pyStrip (pyStr (d.getD k)) := by
  by_cases ht : (d.getD k).truthy = true
  · unfold getStrStripped getStr PyVal.orElse
    rw [if_pos ht]
  · exact absurd (by
      unfold getStrStripped getStr PyVal.orElse
      rw [if_neg ht]
      rfl) h

/-- The object names `execute_deployment` plans are exactly the member
names `build_custom_object_zip` writes into the manifest, in order. -/
theorem deployPlannedObjectNames_eq (objects : List PyVal) :
    deployPlannedObjectNames objects = customObjectZipNames objects := by
  unfold deployPlannedObjectNames
  rw [show (collectMetadataObjects objects).2 = validCustomObjects objects from by
    unfold collectMetadataObjects
    rw [foldl_collectMetadataStep_snd]
    simp]
  unfold planMetadataObjects
  rw [foldl_planMetadataStep_co]
  simp only [List.filter_nil, List.nil_append, List.map_map]
  unfold customObjectZipNames
  refine List.map_congr_left ?_
  intro co hco
  have hmem := List.mem_filter.mp hco
  have hne : getStrStripped co "api_name" ≠ "" := by
    have hb := (Bool.and_eq_true _ _).mp hmem.2
    exact bne_iff_ne.mp hb.2
  simpa using getStrStripped_of_ne co "api_name" hne

/-- C10 (amended): the compiled custom-object manifest lists, under the
single `CustomObject` type, exactly the fully-qualified names of the
planned custom-object components in order — each appearing exactly once
precisely when the planned names are duplicate-free (the counterexample's
divergence) — while all four analytics member lists (`ReportFolder`,
`Report`, `DashboardFolder`, `Dashboard`) are deduplicated by
construction: each is exactly the names of the plan's corresponding
valid entries, each name exactly once. -/
theorem manifest_all_and_only (objects : List PyVal) (plan : PyVal) :
    customObjectManifest objects = [⟨"CustomObject", deployPlannedObjectNames objects⟩]
    ∧ ((deployPlannedObjectNames objects).Nodup →
        ∀ n ∈ deployPlannedObjectNames objects,
          (((customObjectManifest objects).map (fun t => t.members)).flatten).count n = 1)
    ∧ (reportMembers plan).Nodup
    ∧ (∀ n, n ∈ reportMembers plan ↔ n ∈ (analyticsReports plan).map analyticsFqn)
    ∧ (reportFolderMembers plan).Nodup
    ∧ (∀ n, n ∈ reportFolderMembers plan
        ↔ n ∈ (analyticsReportFolders plan).map (fun f => getStrStripped f "api_name"))
    ∧ (dashboardFolderMembers plan).Nodup
    ∧ (∀ n, n ∈ dashboardFolderMembers plan
        ↔ n ∈ (analyticsDashboardFolders plan).map (fun f => getStrStripped f "api_name"))
    ∧ (dashboardMembers plan).Nodup
    ∧ (∀ n, n ∈ dashboardMembers plan ↔ n ∈ (analyticsDashboards plan).map analyticsFqn) := by
  have he := deployPlannedObjectNames_eq objects
  refine ⟨?_, ?_, dedupKeepFirst_nodup _, fun n => dedupKeepFirst_mem n _,
    dedupKeepFirst_nodup _, fun n => dedupKeepFirst_mem n _,
    dedupKeepFirst_nodup _, fun n => dedupKeepFirst_mem n _,
    dedupKeepFirst_nodup _, fun n => dedupKeepFirst_mem n _⟩
  · rw [he]
    rfl
  · intro hnd n hn
    have hflat : (((customObjectManifest objects).map (fun t => t.members)).flatten)
        = deployPlannedObjectNames objects := by
      rw [he]
      simp [customObjectManifest, packageXmlForObjects]
    rw [hflat]
    exact List.count_eq_one_of_mem hnd hn

/-- C10 witness: a two-object plan with distinct names — each manifest
member appears exactly once. -/
theorem manifest_all_and_only_witness :
    (((customObjectManifest [.dict [("api_name", .str "Foo__c"), ("label", .str "A")],
        .dict [("api_name", .str "Bar__c"), ("label", .str "B")]]).map
          (fun t => t.members)).flatten).count "Foo__c" = 1 :=
  (manifest_all_and_only [.dict [("api_name", .str "Foo__c"), ("label", .str "A")],
      .dict [("api_name", .str "Bar__c"), ("label", .str "B")]] (.dict [])).2.1
    (by decide) "Foo__c" (by decide)

/-- `contains` over appending one name. -/
theorem contains_append_single (S : List String) (f g : String) :
    (S ++ [f]).contains g = (S.contains g || g == f) := by
  induction S with
  | nil => cases hgf : g == f <;> simp [List.contains, List.elem, hgf]
  | cons s rest ih =>
      cases hgs : g == s
      · simpa [List.contains, List.elem, hgs] using ih
      · simp [List.contains, List.elem, hgs]

/-- The folder referential check of a report with a non-empty folder
value: the folder-not-found error unless `pre_existing` or a matching
plan folder excuses it. -/
theorem reportFolderCheck_char (S : List String) (i : Nat) (r : PyVal)
    (g : String) (hg : requiredStringValue r "folder" = g) (hne : g ≠ "") :
    reportFolderCheck S i r
      = if preExistingValue r || S.contains g then [] else [reportFolderNotFoundErr i g] := by
  simp only [reportFolderCheck, hg]
  have hb : (g != "") = true := bne_iff_ne.mpr hne
  cases hpre : preExistingValue r
  · cases hc : S.contains g
    · simp [hb, hpre, hc, reportFolderNotFoundErr]
    · simp [hb, hpre, hc]
  · simp [hb, hpre]

/-- `folder_names_set` distributes over list concatenation. -/
theorem folderNamesSet_append : ∀ (l1 l2 : List PyVal),
    folderNamesSet (l1 ++ l2) = folderNamesSet l1 ++ folderNamesSet l2 := by
  intro l1 l2
  induction l1 with
  | nil => rfl
  | cons x t ih =>
      simp only [List.cons_append, folderNamesSet, List.append_eq, ih, List.append_assoc]

/-- The validated api name of the added folder entry. -/
theorem requiredStringValue_folderSpec (f : String) (hstrip : pyStrip f = f) (hf : f ≠ "") :
    requiredStringValue (folderSpecFor f) "api_name" = f := by
  show (if pyStrip f != "" then pyStrip f else "") = f
  rw [hstrip, if_pos (bne_iff_ne.mpr hf)]

/-- The added folder entry contributes its name to the plan's folder
set. -/
theorem folderNamesSet_folderSpec (f : String) (hstrip : pyStrip f = f) (hf : f ≠ "") :
    folderNamesSet [folderSpecFor f] = [f] := by
  have hv := requiredStringValue_folderSpec f hstrip hf
  have h1 : folderNamesSet [folderSpecFor f]
      = (if requiredStringValue (folderSpecFor f) "api_name" != "" then
          [requiredStringValue (folderSpecFor f) "api_name"] else []) ++ [] := rfl
  rw [h1, List.append_nil, hv, if_pos (bne_iff_ne.mpr hf)]

/-- The folder loop splits over list concatenation, shifting the index. -/
theorem folderErrsAux_append (k e : String) :
    ∀ (l1 : List PyVal) (i : Nat) (l2 : List PyVal),
      folderErrsAux k e i (l1 ++ l2)
        = folderErrsAux k e i l1 ++ folderErrsAux k e (i + l1.length) l2 := by
  intro l1
  induction l1 with
  | nil => intro i l2; simp [folderErrsAux]
  | cons x t ih =>
      intro i l2
      simp only [List.cons_append, folderErrsAux, List.append_eq, ih (i + 1) l2,
        List.append_assoc, List.length_cons]
      rw [show i + 1 + t.length = i + (t.length + 1) from by omega]

/-- The added folder entry itself validates cleanly. -/
theorem folderEntryErrs_folderSpec (k e : String) (i : Nat) (f : String)
    (hstrip : pyStrip f = f) (hf : f ≠ "") :
    folderEntryErrs k e i (folderSpecFor f) = [] := by
  have h1 : folderEntryErrs k e i (folderSpecFor f)
      = requiredStringErrs (folderSpecFor f) "api_name" (k ++ "[" ++ toString i ++ "]")
        ++ requiredStringErrs (folderSpecFor f) "name" (k ++ "[" ++ toString i ++ "]")
        ++ keyEnumErrs (folderSpecFor f) "accessType" (k ++ "[" ++ toString i ++ "]")
            folderAccessTypes folderAccessTypesSorted := rfl
  have h2 : requiredStringErrs (folderSpecFor f) "api_name" (k ++ "[" ++ toString i ++ "]")
      = [] := by
    show (if pyStrip f != "" then ([] : List VErr)
          else [⟨(k ++ "[" ++ toString i ++ "]") ++ "." ++ "api_name",
                "api_name" ++ " must be a non-empty string"⟩]) = []
    rw [hstrip, if_pos (bne_iff_ne.mpr hf)]
  have h3 : requiredStringErrs (folderSpecFor f) "name" (k ++ "[" ++ toString i ++ "]")
      = [] := rfl
  have h4 : keyEnumErrs (folderSpecFor f) "accessType" (k ++ "[" ++ toString i ++ "]")
      folderAccessTypes folderAccessTypesSorted = [] := rfl
  rw [h1, h2, h3, h4]
  rfl

/-- Per-report error-count delta when the folder `f` joins the plan's
folder set. -/
theorem reportItemErrs_folder_delta (S : List String) (f : String) (hf : f ≠ "")
    (hnotin : S.contains f = false) (i : Nat) (r : PyVal) :
    (reportItemErrs (S ++ [f]) i r).length
        + (if r.isDict && (requiredStringValue r "folder" == f) && !(preExistingValue r)
           then 1 else 0)
      = (reportItemErrs S i r).length := by
  by_cases hd : r.isDict = true
  · have h1 : reportItemErrs (S ++ [f]) i r
        = reportBaseErrs i r ++ preExistingErrs r (reportPathOf i)
          ++ reportFolderCheck (S ++ [f]) i r := by
      simp [reportItemErrs, hd]
    have h2 : reportItemErrs S i r
        = reportBaseErrs i r ++ preExistingErrs r (reportPathOf i)
          ++ reportFolderCheck S i r := by
      simp [reportItemErrs, hd]
    by_cases hg : requiredStringValue r "folder" = ""
    · have hc1 : reportFolderCheck (S ++ [f]) i r = [] := by
        simp [reportFolderCheck, hg]
      have hc2 : reportFolderCheck S i r = [] := by
        simp [reportFolderCheck, hg]
      have hgf : (requiredStringValue r "folder" == f) = false := by
        rw [hg]
        exact beq_false_of_ne (fun hc => hf hc.symm)
      rw [h1, h2, hc1, hc2, hgf]
      simp
    · have hchar1 := reportFolderCheck_char (S ++ [f]) i r _ rfl hg
      have hchar2 := reportFolderCheck_char S i r _ rfl hg
      rw [h1, h2, hchar1, hchar2, contains_append_single]
      cases hpre : preExistingValue r
      · cases hgf : requiredStringValue r "folder" == f
        · simp [hd, hpre, hgf, List.length_append]
        · have hcs : S.contains (requiredStringValue r "folder") = false := by
            rw [eq_of_beq hgf]
            exact hnotin
          have hmem : requiredStringValue r "folder" ∉ S := by
            intro hm
            have hcc : S.contains (requiredStringValue r "folder") = true :=
              List.elem_iff.mpr hm
            rw [hcs] at hcc
            exact absurd hcc (by decide)
          simp [hd, hpre, hgf, hcs, hmem, List.length_append]
          omega
      · simp [hd, hpre, List.length_append]
  · have hind : (r.isDict && (requiredStringValue r "folder" == f)
        && !(preExistingValue r)) = false := by
      cases h0 : r.isDict with
      | false => simp [h0]
      | true => exact absurd h0 hd
    have h1 : reportItemErrs (S ++ [f]) i r = [⟨reportPathOf i, "report entry must be an object"⟩] := by
      simp [reportItemErrs, hd]
    have h2 : reportItemErrs S i r = [⟨reportPathOf i, "report entry must be an object"⟩] := by
      simp [reportItemErrs, hd]
    rw [h1, h2, hind]
    simp

/-- Total error-count delta of the reports loop when folder `f` joins the
plan's folder set: exactly the reports referencing `f`. -/
theorem reportsErrsAux_folder_delta (S : List String) (f : String) (hf : f ≠ "")
    (hnotin : S.contains f = false) :
    ∀ (rs : List PyVal) (i : Nat),
      (reportsErrsAux (S ++ [f]) i rs).length + reportsReferencingFolder f rs
        = (reportsErrsAux S i rs).length := by
  intro rs
  induction rs with
  | nil => intro i; rfl
  | cons r rest ih =>
      intro i
      have hitem := reportItemErrs_folder_delta S f hf hnotin i r
      have hrest := ih (i + 1)
      simp only [reportsErrsAux, List.length_append, reportsReferencingFolder,
        List.countP_cons] at hitem hrest ⊢
      by_cases hp : (r.isDict && (requiredStringValue r "folder" == f)
          && !(preExistingValue r)) = true
      · simp only [hp, if_true] at hitem ⊢
        omega
      · simp only [Bool.not_eq_true] at hp
        simp only [hp] at hitem ⊢
        omega

/-- C8 (amended): a report whose non-empty folder is neither among the
plan's report folders nor excused by `pre_existing: true` always yields
the folder-not-found error at its folder path, and either addition
removes it; adding a matching folder to the plan removes exactly the
errors of the reports referencing that folder, so the total validation
error count drops by that number — by one only when a single report
references the folder (the counterexample's divergence). -/
theorem analytics_folder_round_trip (fs dbfs rs ds : List PyVal) (f : String)
    (hstrip : pyStrip f = f) (hf : f ≠ "")
    (hnotin : (folderNamesSet fs).contains f = false) :
    ((validateAnalyticsPlan (mkAnalyticsPlan (.list (fs ++ [folderSpecFor f])) (.list dbfs)
          (.list rs) (.list ds))).length
        + reportsReferencingFolder f rs
      = (validateAnalyticsPlan (mkAnalyticsPlan (.list fs) (.list dbfs) (.list rs)
          (.list ds))).length)
    ∧ (∀ (S : List String) (i : Nat) (r : PyVal) (g : String),
        requiredStringValue r "folder" = g → g ≠ "" →
        reportFolderCheck S i r
          = if preExistingValue r || S.contains g then [] else [reportFolderNotFoundErr i g]) := by
  constructor
  · have hv1 : validateAnalyticsPlan (mkAnalyticsPlan (.list (fs ++ [folderSpecFor f]))
        (.list dbfs) (.list rs) (.list ds))
        = foldersBlockErrs "report_folders" "report_folder" (.list (fs ++ [folderSpecFor f]))
          ++ foldersBlockErrs "dashboard_folders" "dashboard_folder" (.list dbfs)
          ++ reportsBlockErrs (folderNamesSet (fs ++ [folderSpecFor f])) (.list rs)
          ++ dashboardsBlockErrs (folderNamesSet dbfs) (reportsInPlan rs) (.list ds) := rfl
    have hv2 : validateAnalyticsPlan (mkAnalyticsPlan (.list fs) (.list dbfs) (.list rs)
        (.list ds))
        = foldersBlockErrs "report_folders" "report_folder" (.list fs)
          ++ foldersBlockErrs "dashboard_folders" "dashboard_folder" (.list dbfs)
          ++ reportsBlockErrs (folderNamesSet fs) (.list rs)
          ++ dashboardsBlockErrs (folderNamesSet dbfs) (reportsInPlan rs) (.list ds) := rfl
    have hfolders : foldersBlockErrs "report_folders" "report_folder"
        (.list (fs ++ [folderSpecFor f]))
        = foldersBlockErrs "report_folders" "report_folder" (.list fs) := by
      show folderErrsAux "report_folders" "report_folder" 0 (fs ++ [folderSpecFor f])
          = folderErrsAux "report_folders" "report_folder" 0 fs
      rw [folderErrsAux_append]
      have hone : folderErrsAux "report_folders" "report_folder" (0 + fs.length)
          [folderSpecFor f] = [] := by
        show folderEntryErrs "report_folders" "report_folder" (0 + fs.length) (folderSpecFor f)
            ++ folderErrsAux "report_folders" "report_folder" (0 + fs.length + 1) [] = []
        rw [folderEntryErrs_folderSpec _ _ _ _ hstrip hf]
        rfl
      rw [hone, List.append_nil]
    have hnames : folderNamesSet (fs ++ [folderSpecFor f]) = folderNamesSet fs ++ [f] := by
      rw [folderNamesSet_append, folderNamesSet_folderSpec f hstrip hf]
    have hreports : (reportsErrsAux (folderNamesSet fs ++ [f]) 0 rs).length
        + reportsReferencingFolder f rs
        = (reportsErrsAux (folderNamesSet fs) 0 rs).length :=
      reportsErrsAux_folder_delta (folderNamesSet fs) f hf hnotin rs 0
    rw [hv1, hv2, hfolders, hnames]
    show (_ ++ _ ++ reportsErrsAux (folderNamesSet fs ++ [f]) 0 rs ++ _).length + _
        = (_ ++ _ ++ reportsErrsAux (folderNamesSet fs) 0 rs ++ _).length
    simp only [List.length_append]
    omega
  · exact fun S i r g hg hne => reportFolderCheck_char S i r g hg hne

/-- C8 witness: one report referencing folder `F`; adding the matching
folder lowers the total error count by exactly one. -/
theorem analytics_folder_round_trip_witness :
    (validateAnalyticsPlan (mkAnalyticsPlan (.list [folderSpecFor "F"]) (.list [])
          (.list [c8Report "R1"]) (.list []))).length + 1
      = (validateAnalyticsPlan (mkAnalyticsPlan (.list []) (.list [])
          (.list [c8Report "R1"]) (.list []))).length := by
  have h := (analytics_folder_round_trip [] [] [c8Report "R1"] [] "F"
    (by decide) (by decide) rfl).1
  have h2 : reportsReferencingFolder "F" [c8Report "R1"] = 1 := by decide
  rw [h2] at h
  exact h

end SfdcEngine
